import Mathlib

/-
Verification development for the mPatriota legislative-tracking pipeline.

The Python sources embedded here (shallowly, as executable Lean functions) are:
  - src/models/project.py   : the canonical data model (Phase, Voting, Stage,
                              Project), phase derivation and (de)serialization;
  - src/scrapers/sejm.py    : extract_rcl_num_from_sejm_url;
  - src/pipeline/linker.py  : Linker.link_project and its helpers, with the
                              network collaborators modelled as an explicit
                              environment and every issued call recorded in a
                              trace;
  - src/pipeline/unifier.py : stage conversion, the timeline merge with its
                              date parsing, voting extraction, the guarded
                              enrichment lookups and Unifier.unify.

Python `Optional[T]` is modelled as `Option T`; Python truthiness on strings
(`if s:`) is modelled explicitly (None and "" are falsy).  String processing
is done on `List Char` with structural recursion so that every definition
evaluates inside the kernel.
-/

/-! ## Generic string helpers (List Char based) -/

/-- ASCII lower-casing of one character, as CPython's str.lower restricted to
ASCII; the boilerplate title prefixes compared with it are all ASCII. -/
def lowerChar (c : Char) : Char :=
  if 'A' ≤ c ∧ c ≤ 'Z' then Char.ofNat (c.toNat + 32) else c

/-- Lower-case a character list. -/
def lowerL (l : List Char) : List Char := l.map lowerChar

/-- Auxiliary accumulator loop for whitespace splitting. -/
def splitWSAux : List Char → List Char → List (List Char)
  | [], acc => if acc.isEmpty then [] else [acc.reverse]
  | c :: rest, acc =>
    if c.isWhitespace then
      (if acc.isEmpty then splitWSAux rest [] else acc.reverse :: splitWSAux rest [])
    else splitWSAux rest (c :: acc)

/-- Python str.split() with no argument: split on whitespace runs, dropping
empty words. -/
def splitWS (s : List Char) : List (List Char) := splitWSAux s []

/-- Python " ".join(words). -/
def joinSpace : List (List Char) → List Char
  | [] => []
  | [w] => w
  | w :: ws => w ++ ' ' :: joinSpace ws

/-- Python str.strip(): drop whitespace on both ends. -/
def trimL (l : List Char) : List Char :=
  ((l.dropWhile Char.isWhitespace).reverse.dropWhile Char.isWhitespace).reverse

/-- Python s.replace("Z", "+00:00"): the pattern is a single character, so
replacement is a flat map. -/
def replaceZ (l : List Char) : List Char :=
  l.flatMap (fun c => if c = 'Z' then "+00:00".toList else [c])

/-- Python `c in s` for a single-character pattern. -/
def strHasChar (s : String) (c : Char) : Bool := s.toList.contains c

/-- Python len(s) (code points). -/
def strLen (s : String) : Nat := s.toList.length

/-- Python truthiness of an Optional[str] field: None and "" are falsy. -/
def truthyStr : Option String → Bool
  | none => false
  | some s => ¬ s.toList.isEmpty

/-- Python `a or b` on Optional[str] values: `b` when `a` is None or "". -/
def orTruthy (a b : Option String) : Option String :=
  if truthyStr a then a else b

/-- Python f-string rendering of an Optional[str]: None prints as "None". -/
def pyStr : Option String → String
  | none => "None"
  | some s => s

/-! ## Data model (src/models/project.py) -/

/-- Phase enum: current phase of the legislative process. -/
inductive Phase where
  | rcl | sejm | senate | president | published | rejected | withdrawn
deriving DecidableEq, Repr

/-- The str value of each Phase enum member. -/
def Phase.value : Phase → String
  | .rcl => "rcl"
  | .sejm => "sejm"
  | .senate => "senate"
  | .president => "president"
  | .published => "published"
  | .rejected => "rejected"
  | .withdrawn => "withdrawn"

/-- Python Phase(s): partial inverse of Phase.value (ValueError = none). -/
def Phase.ofValue (s : String) : Option Phase :=
  if s = "rcl" then some .rcl
  else if s = "sejm" then some .sejm
  else if s = "senate" then some .senate
  else if s = "president" then some .president
  else if s = "published" then some .published
  else if s = "rejected" then some .rejected
  else if s = "withdrawn" then some .withdrawn
  else none

/-- Voting breakdown for a single party (dataclass PartyVote). -/
structure PartyVote where
  party : String
  yes : Nat := 0
  no : Nat := 0
  abstain : Nat := 0
  absent : Nat := 0
deriving DecidableEq, Repr

/-- Committee involved in a legislative process (dataclass CommitteeInfo). -/
structure CommitteeInfo where
  code : String
  name : String
  chairman_name : Option String := none
  chairman_party : Option String := none
deriving DecidableEq, Repr

/-- Rapporteur for a legislative process (dataclass RapporteurInfo). -/
structure RapporteurInfo where
  id : Nat
  name : String
deriving DecidableEq, Repr

/-- Senate position on a law (dataclass SenatePositionInfo). -/
structure SenatePositionInfo where
  date : String
  position : String
  print_number : Option String := none
  decision : Option String := none
deriving DecidableEq, Repr

/-- Constitutional Tribunal case (dataclass TribunalCaseInfo). -/
structure TribunalCaseInfo where
  case_number : String
  judgment_date : String
  judgment_type : String
  saos_id : Nat
  is_constitutional : Option Bool := none
deriving DecidableEq, Repr

/-- Voting results from Sejm (dataclass Voting). -/
structure Voting where
  date : String
  yes : Nat
  no : Nat
  abstain : Nat
  total : Nat
  result : String
  sitting : Option Nat := none
  voting_number : Option Nat := none
  pdf_url : Option String := none
  by_party : List PartyVote := []
deriving DecidableEq, Repr

/-- Opaque payload standing for a raw JSON dict that the pipeline carries
through without ever inspecting (the entries of Stage.documents). -/
structure JsonDict where
  tag : Nat
deriving DecidableEq, Repr

/-- A single stage in the legislative timeline (dataclass Stage). -/
structure Stage where
  date : Option String
  source : String
  stage_name : String
  stage_type : Option String := none
  is_active : Bool := false
  decision : Option String := none
  documents : List JsonDict := []
  url : Option String := none
  katalog_id : Option String := none
  committee_code : Option String := none
  print_number : Option String := none
  voting : Option Voting := none
deriving DecidableEq, Repr

/-- Unified legislative project (dataclass Project). -/
structure Project where
  rm_number : Option String := none
  rcl_id : Option String := none
  sejm_print : Option String := none
  eli : Option String := none
  title : String := ""
  title_simple : Option String := none
  description : Option String := none
  description_simple : Option String := none
  initiator : Option String := none
  document_type : String := "projekt ustawy"
  creation_date : Option String := none
  last_modified : Option String := none
  phase : Phase := .rcl
  passed : Option Bool := none
  voting : Option Voting := none
  stages : List Stage := []
  rcl_status : Option String := none
  rcl_url : Option String := none
  sejm_url : Option String := none
  sejm_term : Nat := 10
  closure_date : Option String := none
  committees : List CommitteeInfo := []
  rapporteurs : List RapporteurInfo := []
  senate_position : Option SenatePositionInfo := none
  president_signature_date : Option String := none
  tribunal_cases : List TribunalCaseInfo := []
  publication_date : Option String := none
  publication_url : Option String := none
  entry_into_force : Option String := none
deriving DecidableEq, Repr

/-! ## Phase derivation (Project.determine_phase / update_phase) -/

/-- Project.get_sejm_stages: only the stages with source "sejm". -/
def Project.get_sejm_stages (p : Project) : List Stage :=
  p.stages.filter (fun s => s.source = "sejm")

/-- Project.get_rcl_stages: only the stages with source "rcl". -/
def Project.get_rcl_stages (p : Project) : List Stage :=
  p.stages.filter (fun s => s.source = "rcl")

/-- Project.get_current_stage: the last stage with is_active set, scanning
from the end; otherwise the last stage, or none for an empty list. -/
def Project.get_current_stage (p : Project) : Option Stage :=
  match p.stages.reverse.find? (fun s => s.is_active) with
  | some s => some s
  | none => p.stages.getLast?

/-- Python `"Prezydent" in name` (substring containment on code points). -/
def containsSub (s pat : List Char) : Bool :=
  match s with
  | [] => pat.isEmpty
  | _ :: t => pat.isPrefixOf s || containsSub t pat

/-- Project.determine_phase, translated line by line:
publication (truthy eli or publication_date) wins, then passed is False,
then the last sejm stage name is scanned for "Prezydent" and "Senat",
else SEJM; with no sejm stages the phase is RCL. -/
def Project.determine_phase (p : Project) : Phase :=
  if truthyStr p.eli || truthyStr p.publication_date then .published
  else if p.passed = some false then .rejected
  else
    match (p.get_sejm_stages).getLast? with
    | some last_sejm =>
      if containsSub last_sejm.stage_name.toList "Prezydent".toList then .president
      else if containsSub last_sejm.stage_name.toList "Senat".toList then .senate
      else .sejm
    | none => .rcl

/-- Project.update_phase: store the derived phase on the project. -/
def Project.update_phase (p : Project) : Project :=
  { p with phase := p.determine_phase }

/-- Modelled from the spec wording of claim C1 (the phase resolver's strict
priority order), to be compared with the code's Project.determine_phase:
Published when the publication key or publication date is set; else Rejected
when the passed flag is recorded false; else, when at least one
parliamentary-origin stage exists, President / Senate / Sejm by keyword in
the last such stage's name; else the government stage phase. -/
def phaseSpec (p : Project) : Phase :=
  if truthyStr p.eli || truthyStr p.publication_date then .published
  else if p.passed = some false then .rejected
  else
    match (p.stages.filter (fun s => s.source = "sejm")).getLast? with
    | some last =>
      if containsSub last.stage_name.toList "Prezydent".toList then .president
      else if containsSub last.stage_name.toList "Senat".toList then .senate
      else .sejm
    | none => .rcl

/-! ## Serialization (Project.to_dict / Project.from_dict)

The dict produced by dataclasses.asdict has exactly the dataclass fields,
with nested dataclasses turned into dicts; it is modelled by mirror
structures suffixed with D, with Phase stored as its str value. -/

/-- Dict form of PartyVote. -/
structure PartyVoteD where
  party : String
  yes : Nat
  no : Nat
  abstain : Nat
  absent : Nat
deriving DecidableEq, Repr

/-- Dict form of Voting. -/
structure VotingD where
  date : String
  yes : Nat
  no : Nat
  abstain : Nat
  total : Nat
  result : String
  sitting : Option Nat
  voting_number : Option Nat
  pdf_url : Option String
  by_party : List PartyVoteD
deriving DecidableEq, Repr

/-- Dict form of Stage. -/
structure StageD where
  date : Option String
  source : String
  stage_name : String
  stage_type : Option String
  is_active : Bool
  decision : Option String
  documents : List JsonDict
  url : Option String
  katalog_id : Option String
  committee_code : Option String
  print_number : Option String
  voting : Option VotingD
deriving DecidableEq, Repr

/-- Dict form of CommitteeInfo. -/
structure CommitteeInfoD where
  code : String
  name : String
  chairman_name : Option String
  chairman_party : Option String
deriving DecidableEq, Repr

/-- Dict form of RapporteurInfo. -/
structure RapporteurInfoD where
  id : Nat
  name : String
deriving DecidableEq, Repr

/-- Dict form of SenatePositionInfo. -/
structure SenatePositionInfoD where
  date : String
  position : String
  print_number : Option String
  decision : Option String
deriving DecidableEq, Repr

/-- Dict form of TribunalCaseInfo. -/
structure TribunalCaseInfoD where
  case_number : String
  judgment_date : String
  judgment_type : String
  saos_id : Nat
  is_constitutional : Option Bool
deriving DecidableEq, Repr

/-- Dict form of Project (asdict output with phase replaced by its value). -/
structure ProjectD where
  rm_number : Option String
  rcl_id : Option String
  sejm_print : Option String
  eli : Option String
  title : String
  title_simple : Option String
  description : Option String
  description_simple : Option String
  initiator : Option String
  document_type : String
  creation_date : Option String
  last_modified : Option String
  phase : String
  passed : Option Bool
  voting : Option VotingD
  stages : List StageD
  rcl_status : Option String
  rcl_url : Option String
  sejm_url : Option String
  sejm_term : Nat
  closure_date : Option String
  committees : List CommitteeInfoD
  rapporteurs : List RapporteurInfoD
  senate_position : Option SenatePositionInfoD
  president_signature_date : Option String
  tribunal_cases : List TribunalCaseInfoD
  publication_date : Option String
  publication_url : Option String
  entry_into_force : Option String
deriving DecidableEq, Repr

/-- asdict on a PartyVote. -/
def PartyVote.toD (v : PartyVote) : PartyVoteD :=
  ⟨v.party, v.yes, v.no, v.abstain, v.absent⟩

/-- asdict on a Voting. -/
def Voting.toD (v : Voting) : VotingD :=
  ⟨v.date, v.yes, v.no, v.abstain, v.total, v.result, v.sitting,
   v.voting_number, v.pdf_url, v.by_party.map PartyVote.toD⟩

/-- asdict on a Stage. -/
def Stage.toD (s : Stage) : StageD :=
  ⟨s.date, s.source, s.stage_name, s.stage_type, s.is_active, s.decision,
   s.documents, s.url, s.katalog_id, s.committee_code, s.print_number,
   s.voting.map Voting.toD⟩

/-- asdict on a CommitteeInfo. -/
def CommitteeInfo.toD (c : CommitteeInfo) : CommitteeInfoD :=
  ⟨c.code, c.name, c.chairman_name, c.chairman_party⟩

/-- asdict on a RapporteurInfo. -/
def RapporteurInfo.toD (r : RapporteurInfo) : RapporteurInfoD :=
  ⟨r.id, r.name⟩

/-- asdict on a SenatePositionInfo. -/
def SenatePositionInfo.toD (s : SenatePositionInfo) : SenatePositionInfoD :=
  ⟨s.date, s.position, s.print_number, s.decision⟩

/-- asdict on a TribunalCaseInfo. -/
def TribunalCaseInfo.toD (t : TribunalCaseInfo) : TribunalCaseInfoD :=
  ⟨t.case_number, t.judgment_date, t.judgment_type, t.saos_id, t.is_constitutional⟩

/-- Project.to_dict: asdict(self) with data['phase'] = self.phase.value. -/
def Project.to_dict (p : Project) : ProjectD where
  rm_number := p.rm_number
  rcl_id := p.rcl_id
  sejm_print := p.sejm_print
  eli := p.eli
  title := p.title
  title_simple := p.title_simple
  description := p.description
  description_simple := p.description_simple
  initiator := p.initiator
  document_type := p.document_type
  creation_date := p.creation_date
  last_modified := p.last_modified
  phase := p.phase.value
  passed := p.passed
  voting := p.voting.map Voting.toD
  stages := p.stages.map Stage.toD
  rcl_status := p.rcl_status
  rcl_url := p.rcl_url
  sejm_url := p.sejm_url
  sejm_term := p.sejm_term
  closure_date := p.closure_date
  committees := p.committees.map CommitteeInfo.toD
  rapporteurs := p.rapporteurs.map RapporteurInfo.toD
  senate_position := p.senate_position.map SenatePositionInfo.toD
  president_signature_date := p.president_signature_date
  tribunal_cases := p.tribunal_cases.map TribunalCaseInfo.toD
  publication_date := p.publication_date
  publication_url := p.publication_url
  entry_into_force := p.entry_into_force

/-- _voting_from_dict: rebuild PartyVote entries (an empty by_party list
skips the loop and still yields []), then Voting(**data). -/
def votingFromD (d : VotingD) : Voting :=
  ⟨d.date, d.yes, d.no, d.abstain, d.total, d.result, d.sitting,
   d.voting_number, d.pdf_url,
   d.by_party.map (fun pv => ⟨pv.party, pv.yes, pv.no, pv.abstain, pv.absent⟩)⟩

/-- Stage(**s) after converting a truthy s['voting'] with _voting_from_dict. -/
def stageFromD (d : StageD) : Stage :=
  ⟨d.date, d.source, d.stage_name, d.stage_type, d.is_active, d.decision,
   d.documents, d.url, d.katalog_id, d.committee_code, d.print_number,
   d.voting.map votingFromD⟩

/-- Project.from_dict.  Phase(data['phase']) raises ValueError on an unknown
value, modelled as none.  The `if data['committees']` style guards in the
source skip the rebuild for an empty list, which coincides with mapping the
constructor over the empty list, and similarly for rapporteurs and
tribunal_cases. -/
def Project.from_dict (d : ProjectD) : Option Project :=
  match Phase.ofValue d.phase with
  | none => none
  | some ph => some
      { rm_number := d.rm_number
        rcl_id := d.rcl_id
        sejm_print := d.sejm_print
        eli := d.eli
        title := d.title
        title_simple := d.title_simple
        description := d.description
        description_simple := d.description_simple
        initiator := d.initiator
        document_type := d.document_type
        creation_date := d.creation_date
        last_modified := d.last_modified
        phase := ph
        passed := d.passed
        voting := d.voting.map votingFromD
        stages := d.stages.map stageFromD
        rcl_status := d.rcl_status
        rcl_url := d.rcl_url
        sejm_url := d.sejm_url
        sejm_term := d.sejm_term
        closure_date := d.closure_date
        committees :=
          if d.committees.isEmpty then [] else
            d.committees.map (fun c => ⟨c.code, c.name, c.chairman_name, c.chairman_party⟩)
        rapporteurs :=
          if d.rapporteurs.isEmpty then [] else
            d.rapporteurs.map (fun r => ⟨r.id, r.name⟩)
        senate_position :=
          d.senate_position.map (fun s => ⟨s.date, s.position, s.print_number, s.decision⟩)
        president_signature_date := d.president_signature_date
        tribunal_cases :=
          if d.tribunal_cases.isEmpty then [] else
            d.tribunal_cases.map (fun t =>
              ⟨t.case_number, t.judgment_date, t.judgment_type, t.saos_id, t.is_constitutional⟩)
        publication_date := d.publication_date
        publication_url := d.publication_url
        entry_into_force := d.entry_into_force }

/-! ## Date parsing and the timeline merge (Unifier.merge_stages)

The sort key of a stage is a Python datetime.  A datetime is modelled as a
flag (offset-aware or naive) together with a UTC-normalized second count
from the civil epoch; CPython compares two datetimes by that count when both
are aware or both are naive and raises TypeError otherwise.  The parsers
model CPython 3.10 semantics of the calls the code makes:
datetime.fromisoformat (without fractional seconds and with the offset in
the ±HH:MM form, which covers the Z-replaced timestamps the guard routes
there), and strptime with the "%Y-%m-%d" and "%d-%m-%Y" formats (field
patterns \d\d\d\d for the year, 1-2 digits with the documented value
classes for month and day, full-match required, then constructor
validation). -/

/-- Python datetime: awareness flag plus UTC-normalized seconds. -/
structure DT where
  aware : Bool
  stamp : Int
deriving DecidableEq, Repr

/-- Gregorian leap year. -/
def isLeap (y : Nat) : Bool := (y % 4 = 0 && y % 100 ≠ 0) || y % 400 = 0

/-- Days in a month. -/
def daysInMonth (y m : Nat) : Nat :=
  if m = 2 then (if isLeap y then 29 else 28)
  else if m = 4 ∨ m = 6 ∨ m = 9 ∨ m = 11 then 30
  else 31

/-- Day count of a civil date (days-from-civil algorithm, valid for y ≥ 1;
only monotonicity in the calendar order matters here). -/
def civilDays (y m d : Nat) : Nat :=
  let y' := if m ≤ 2 then y - 1 else y
  let era := y' / 400
  let yoe := y' % 400
  let mp := (m + 9) % 12
  let doy := (153 * mp + 2) / 5 + d - 1
  let doe := yoe * 365 + yoe / 4 - yoe / 100 + doy
  era * 146097 + doe

/-- Naive-datetime second count of a date plus seconds-of-day. -/
def dateStamp (y m d secs : Nat) : Int := (civilDays y m d : Int) * 86400 + secs

/-- Numeric value of a digit string. -/
def digitsVal (l : List Char) : Nat := l.foldl (fun n c => n * 10 + (c.toNat - 48)) 0

/-- Split a character list at every occurrence of sep (keeping empties). -/
def splitSepAux (sep : Char) : List Char → List Char → List (List Char)
  | [], acc => [acc.reverse]
  | c :: rest, acc =>
    if c = sep then acc.reverse :: splitSepAux sep rest []
    else splitSepAux sep rest (c :: acc)

/-- Split on a separator character. -/
def splitSep (sep : Char) (l : List Char) : List (List Char) := splitSepAux sep l []

/-- strptime %d field: one digit 1-9, or two digits with value 01-31. -/
def fieldDay (l : List Char) : Option Nat :=
  match l with
  | [c] => if c.isDigit ∧ c ≠ '0' then some (c.toNat - 48) else none
  | [a, b] =>
    if a.isDigit ∧ b.isDigit then
      let v := digitsVal [a, b]
      if 1 ≤ v ∧ v ≤ 31 then some v else none
    else none
  | _ => none

/-- strptime %m field: one digit 1-9, or two digits with value 01-12. -/
def fieldMonth (l : List Char) : Option Nat :=
  match l with
  | [c] => if c.isDigit ∧ c ≠ '0' then some (c.toNat - 48) else none
  | [a, b] =>
    if a.isDigit ∧ b.isDigit then
      let v := digitsVal [a, b]
      if 1 ≤ v ∧ v ≤ 12 then some v else none
    else none
  | _ => none

/-- strptime %Y field: exactly four digits. -/
def fieldYear (l : List Char) : Option Nat :=
  match l with
  | [a, b, c, d] =>
    if a.isDigit ∧ b.isDigit ∧ c.isDigit ∧ d.isDigit then some (digitsVal [a, b, c, d])
    else none
  | _ => none

/-- A fixed two-digit numeric field (isoformat components). -/
def fieldTwo (l : List Char) : Option Nat :=
  match l with
  | [a, b] => if a.isDigit ∧ b.isDigit then some (digitsVal [a, b]) else none
  | _ => none

/-- Constructor validation of datetime(y, m, d): MINYEAR is 1 and the day
must fit the month. -/
def validDate (y m d : Nat) : Bool :=
  1 ≤ y ∧ 1 ≤ m ∧ m ≤ 12 ∧ 1 ≤ d ∧ d ≤ daysInMonth y m

/-- strptime(s, "%d-%m-%Y"): full match of day, month, four-digit year
separated by dashes, then constructor validation; midnight time. -/
def parseDMY (cs : List Char) : Option Int :=
  match splitSep '-' cs with
  | [ds, ms, ys] => do
    let d ← fieldDay ds
    let m ← fieldMonth ms
    let y ← fieldYear ys
    if validDate y m d then some (dateStamp y m d 0) else none
  | _ => none

/-- strptime(s, "%Y-%m-%d"): full match of four-digit year, month, day
separated by dashes, then constructor validation; midnight time. -/
def parseYMD (cs : List Char) : Option Int :=
  match splitSep '-' cs with
  | [ys, ms, ds] => do
    let y ← fieldYear ys
    let m ← fieldMonth ms
    let d ← fieldDay ds
    if validDate y m d then some (dateStamp y m d 0) else none
  | _ => none

/-- isoformat date part: YYYY-MM-DD with two-digit month and day. -/
def parseIsoDate (cs : List Char) : Option (Nat × Nat × Nat) :=
  match splitSep '-' cs with
  | [ys, ms, ds] => do
    let y ← fieldYear ys
    let m ← fieldTwo ms
    let d ← fieldTwo ds
    if validDate y m d then some (y, m, d) else none
  | _ => none

/-- isoformat time-of-day part HH, HH:MM or HH:MM:SS, two digits each,
validated as a time; returns seconds of day. -/
def parseHMS (cs : List Char) : Option Nat :=
  match splitSep ':' cs with
  | [hs] => do
    let h ← fieldTwo hs
    if h ≤ 23 then some (h * 3600) else none
  | [hs, ms] => do
    let h ← fieldTwo hs
    let mi ← fieldTwo ms
    if h ≤ 23 ∧ mi ≤ 59 then some (h * 3600 + mi * 60) else none
  | [hs, ms, ss] => do
    let h ← fieldTwo hs
    let mi ← fieldTwo ms
    let s ← fieldTwo ss
    if h ≤ 23 ∧ mi ≤ 59 ∧ s ≤ 59 then some (h * 3600 + mi * 60 + s) else none
  | _ => none

/-- Index of the first occurrence of a character, if any. -/
def firstIdx (c : Char) : List Char → Option Nat
  | [] => none
  | x :: t => if x = c then some 0 else (firstIdx c t).map (· + 1)

/-- isoformat time part: the timezone field starts at the first '-' if one
occurs, else at the first '+'; the offset must be a valid HH:MM pair below
24 hours.  Returns seconds of day and the signed offset, when aware. -/
def parseIsoTime (cs : List Char) : Option (Nat × Option Int) :=
  match firstIdx '-' cs with
  | some i => do
    let secs ← parseHMS (cs.take i)
    let off ← parseHMS (cs.drop (i + 1))
    some (secs, some (-(off : Int)))
  | none =>
    match firstIdx '+' cs with
    | some i => do
      let secs ← parseHMS (cs.take i)
      let off ← parseHMS (cs.drop (i + 1))
      some (secs, some (off : Int))
    | none => do
      let secs ← parseHMS cs
      some (secs, none)

/-- datetime.fromisoformat: the first ten characters are the date, the
eleventh (when present) is an arbitrary separator, the rest is the time with
an optional offset; an offset makes the result aware and is subtracted for
UTC normalization. -/
def parseISO (cs : List Char) : Option DT :=
  if cs.length = 10 then
    (parseIsoDate cs).map (fun (y, m, d) => ⟨false, dateStamp y m d 0⟩)
  else if cs.length ≥ 11 then do
    let (y, m, d) ← parseIsoDate (cs.take 10)
    let (secs, off) ← parseIsoTime (cs.drop 11)
    match off with
    | some o => some ⟨true, dateStamp y m d secs - o⟩
    | none => some ⟨false, dateStamp y m d secs⟩
  else none

/-- The sentinel datetime of the merge: datetime(2000,1,1) for an rcl stage
and datetime(2100,1,1) for any other source; both naive. -/
def sentinelFor (src : String) : DT :=
  if src = "rcl" then ⟨false, dateStamp 2000 1 1 0⟩ else ⟨false, dateStamp 2100 1 1 0⟩

/-- Guard of the isoformat branch: the string contains "T". -/
def guardT (cs : List Char) : Bool := cs.contains 'T'

/-- Guard of the %Y-%m-%d branch: contains "-" and has length ten. -/
def guardYMD (cs : List Char) : Bool := cs.contains '-' && cs.length == 10

/-- Guard of the %d-%m-%Y branch: contains "-". -/
def guardDMY (cs : List Char) : Bool := cs.contains '-'

/-- Unifier.merge_stages.sort_key: a truthy date string containing "T" is
tried as an isoformat timestamp after replacing "Z" with "+00:00"; else one
containing "-" with length ten as "%Y-%m-%d"; else one containing "-" as
"%d-%m-%Y".  Any parse failure, and any date string matching no guard,
falls to the source sentinel (the bare try block reaches its end). -/
def sort_key (st : Stage) : DT :=
  match st.date with
  | none => sentinelFor st.source
  | some ds =>
    let cs := ds.toList
    if cs.isEmpty then sentinelFor st.source
    else if guardT cs then (parseISO (replaceZ cs)).getD (sentinelFor st.source)
    else if guardYMD cs then
      ((parseYMD cs).map (fun n => ⟨false, n⟩)).getD (sentinelFor st.source)
    else if guardDMY cs then
      ((parseDMY cs).map (fun n => ⟨false, n⟩)).getD (sentinelFor st.source)
    else sentinelFor st.source

/-- The comparison sorted() uses on the keys, defined where both keys have
the same awareness. -/
def stageLE (a b : Stage) : Prop := (sort_key a).stamp ≤ (sort_key b).stamp

instance : DecidableRel stageLE := fun _ _ => Int.decLe _ _

instance : IsTotal Stage stageLE := ⟨fun _ _ => Int.le_total _ _⟩

instance : IsTrans Stage stageLE := ⟨fun _ _ _ hab hbc => Int.le_trans hab hbc⟩

/-- Unifier.merge_stages: concatenate rcl stages then sejm stages and apply
Python sorted() with sort_key.  sorted() is a stable sort and a stable sort
with respect to a total preorder is unique, so the success case is
insertionSort; when both a naive and an aware key occur, CPython raises
TypeError on the first mixed comparison (for the list sizes at hand every
mixed pair is separated only by comparisons the binary-insertion phase
performs, so the mixed case always raises), modelled as an error. -/
def merge_stages (rcl_stages sejm_stages : List Stage) : Except Unit (List Stage) :=
  let all_stages := rcl_stages ++ sejm_stages
  if all_stages.all (fun s => (sort_key s).aware = false) ∨
     all_stages.all (fun s => (sort_key s).aware = true) then
    .ok (all_stages.insertionSort stageLE)
  else .error ()

/-- Modelled from the amended claim C4: the merger applies at most one
format, selected by syntactic guards from an ordered rule list (timestamp
when "T" occurs; year-month-day when "-" occurs and the length is ten;
day-month-year when "-" occurs), and a selected format that fails to parse
yields the source sentinel without trying any later format. -/
def sortKeySpec (st : Stage) : DT :=
  let rules : List ((List Char → Bool) × (List Char → Option DT)) :=
    [(guardT, fun cs => parseISO (replaceZ cs)),
     (guardYMD, fun cs => (parseYMD cs).map (fun n => ⟨false, n⟩)),
     (guardDMY, fun cs => (parseDMY cs).map (fun n => ⟨false, n⟩))]
  match st.date with
  | none => sentinelFor st.source
  | some ds =>
    let cs := ds.toList
    if cs.isEmpty then sentinelFor st.source
    else
      match rules.find? (fun r => r.1 cs) with
      | some r => (r.2 cs).getD (sentinelFor st.source)
      | none => sentinelFor st.source

/-! ## Raw source records

The linker and unifier consume parsed JSON dicts; the keys each of them
reads are modelled as structure fields (Optional where .get is used).
A search result summary is reduced to the one key the code reads from it,
its process number. -/

/-- An entry of a "links" array; only rel and href are read, and href is read
unconditionally on a rel match. -/
structure LinkR where
  rel : Option String := none
  href : String := ""
deriving DecidableEq, Repr

/-- A raw voting payload nested in a stage child. -/
structure RawVoting where
  date : Option String := none
  yes : Option Nat := none
  no : Option Nat := none
  abstain : Option Nat := none
  totalVoted : Option Nat := none
  sitting : Option Nat := none
  votingNumber : Option Nat := none
  links : List LinkR := []
deriving DecidableEq, Repr

/-- A child entry of a raw Sejm stage; the code only tests for and reads its
"voting" key. -/
structure ChildR where
  voting : Option RawVoting := none
deriving DecidableEq, Repr

/-- A raw Sejm process stage dict. -/
structure SejmStageR where
  date : Option String := none
  stageName : Option String := none
  stageType : Option String := none
  decision : Option String := none
  committeeCode : Option String := none
  printNumber : Option String := none
  children : List ChildR := []
deriving DecidableEq, Repr

/-- A raw Sejm process dict as returned by get_process. -/
structure SejmProcessR where
  number : Option String := none
  rclNum : Option String := none
  term : Option Nat := none
  title : Option String := none
  passed : Option Bool := none
  closureDate : Option String := none
  changeDate : Option String := none
  description : Option String := none
  ELI : Option String := none
  links : List LinkR := []
  stages : List SejmStageR := []
deriving DecidableEq, Repr

/-- A raw RCL project stage dict. -/
structure RclStageR where
  start_date : Option String := none
  last_modified : Option String := none
  stage_name : Option String := none
  stage_number : Option Nat := none
  is_active : Option Bool := none
  katalog_id : Option String := none
  katalog_url : Option String := none
  documents : Option (List JsonDict) := none
deriving DecidableEq, Repr

/-- A raw RCL project dict. -/
structure RclProjectR where
  project_id : Option String := none
  title : Option String := none
  initiator : Option String := none
  project_type_name : Option String := none
  creation_date : Option String := none
  modification_date : Option String := none
  status : Option String := none
  sejm_url : Option String := none
  stages : List RclStageR := []
deriving DecidableEq, Repr

/-! ## Stage conversion (Unifier.convert_rcl_stages / convert_sejm_stages) -/

/-- Unifier.convert_rcl_stages: one canonical government stage per raw stage,
with the truthy-or date fallback and the rcl_stage_N stage type. -/
def convert_rcl_stages (rcl : RclProjectR) : List Stage :=
  rcl.stages.map (fun st =>
    { date := orTruthy st.start_date st.last_modified
      source := "rcl"
      stage_name := st.stage_name.getD ""
      stage_type := some ("rcl_stage_" ++ toString (st.stage_number.getD 0))
      is_active := st.is_active.getD false
      katalog_id := st.katalog_id
      url := st.katalog_url
      documents := st.documents.getD [] })

/-- The generator next((l["href"] for l in links if l.get("rel") == k), None). -/
def findHref (k : String) (links : List LinkR) : Option String :=
  (links.find? (fun l => l.rel == some k)).map (fun l => l.href)

/-- The Voting built inside convert_sejm_stages from a raw child voting
payload (no voting_number there). -/
def mkStageVoting (v : RawVoting) : Voting :=
  { date := v.date.getD ""
    yes := v.yes.getD 0
    no := v.no.getD 0
    abstain := v.abstain.getD 0
    total := v.totalVoted.getD 0
    result := if v.yes.getD 0 > v.no.getD 0 then "passed" else "rejected"
    sitting := v.sitting
    pdf_url := findHref "pdf" v.links }

/-- Unifier.convert_sejm_stages: one canonical parliamentary stage per raw
stage; the child loop overwrites the voting, so the last child carrying a
voting key wins; is_active is always False (Sejm stages are historical). -/
def convert_sejm_stages (sejm : SejmProcessR) : List Stage :=
  sejm.stages.map (fun st =>
    let voting := st.children.foldl
      (fun acc c => match c.voting with
        | some v => some (mkStageVoting v)
        | none => acc) none
    { date := st.date
      source := "sejm"
      stage_name := st.stageName.getD ""
      stage_type := st.stageType
      is_active := false
      decision := st.decision
      committee_code := st.committeeCode
      print_number := st.printNumber
      voting := voting })

/-! ## Identifier extraction (sejm.py extract_rcl_num_from_sejm_url) -/

/-- Character class [\d-] of the RM pattern. -/
def digitDash (c : Char) : Bool := c.isDigit || c = '-'

/-- Greedy run of [\d-] characters. -/
def takeDigitDash : List Char → List Char
  | [] => []
  | c :: t => if digitDash c then c :: takeDigitDash t else []

/-- re.search of Id=(RM-[\d-]+): leftmost position where the literal
"Id=RM-" matches followed by at least one [\d-] character; the capture is
"RM-" plus the greedy run. -/
def findRM : List Char → Option String
  | [] => none
  | h :: t =>
    if "Id=RM-".toList.isPrefixOf (h :: t) then
      let run := takeDigitDash ((h :: t).drop 6)
      if run.isEmpty then findRM t else some (String.mk ("RM-".toList ++ run))
    else findRM t

/-- extract_rcl_num_from_sejm_url: the captured RM number, or none. -/
def extract_rcl_num_from_sejm_url (sejm_url : String) : Option String :=
  findRM sejm_url.toList

/-! ## Linker (src/pipeline/linker.py)

The SejmAPI collaborators are an explicit environment; each attempted call
(search_processes with the fixed document type "projekt ustawy" and limit
10, or get_process) is recorded in a trace whether it succeeds or raises.
The per-run cache maps RM numbers to processes, newest entry first. -/

/-- One issued network call of the linker. -/
inductive SejmCall where
  | search (term : Nat) (query : String)
  | fetch (term : Nat) (number : String)
deriving DecidableEq, Repr

/-- The SejmAPI capabilities the linker consumes, per term. -/
structure SejmEnv where
  search_processes : Nat → String → Except Unit (List String)
  get_process : Nat → String → Except Unit SejmProcessR

/-- The per-run identity cache (dict rm_number -> process). -/
abbrev SejmCache := List (String × SejmProcessR)

/-- Dict assignment self._sejm_cache[rm_number] = details. -/
def cacheInsert (cache : SejmCache) (k : String) (v : SejmProcessR) : SejmCache :=
  (k, v) :: cache

/-- Linker.find_sejm_by_rm_number: cache lookup only (the list endpoint does
not include rclNum); never called by link_project. -/
def find_sejm_by_rm_number (cache : SejmCache) (rm_number : String) : Option SejmProcessR :=
  (cache.find? (fun e => e.1 == rm_number)).map (fun e => e.2)

/-- Linker.extract_rm_number: None or empty sejm_url yields none, else the
RM pattern search. -/
def extract_rm_number (rcl_project : RclProjectR) : Option String :=
  match rcl_project.sejm_url with
  | none => none
  | some u => if u.toList.isEmpty then none else extract_rcl_num_from_sejm_url u

/-- The fixed boilerplate prefixes stripped from a title (first match wins). -/
def titlePrefixes : List String :=
  ["Projekt ustawy o zmianie ustawy",
   "Projekt Ustawy o zmianie ustawy",
   "Ustawa o zmianie ustawy",
   "Projekt ustawy o",
   "Projekt ustawy",
   "Ustawa o"]

/-- The search query derived from a title: case-insensitively strip the
first matching boilerplate prefix, strip whitespace, take the first three
words; none when no words remain. -/
def searchQuery (title : String) : Option String :=
  let tl := title.toList
  let search_title :=
    match titlePrefixes.find? (fun p => (lowerL p.toList).isPrefixOf (lowerL tl)) with
    | some p => trimL (tl.drop p.toList.length)
    | none => tl
  let words := (splitWS search_title).take 3
  if words.isEmpty then none
  else some (String.mk (joinSpace words))

/-- The inner candidate loop of find_sejm_by_title: fetch each candidate's
detail; a raising fetch is recorded and skipped; with an expected RM number
a match on rclNum caches and returns, a mismatch continues; without one the
first fetched detail is returned. -/
def tryCandidates (env : SejmEnv) (term : Nat) (rm : Option String) (cache : SejmCache) :
    List String → SejmCache × List SejmCall × Option SejmProcessR
  | [] => (cache, [], none)
  | num :: rest =>
    match env.get_process term num with
    | .error _ =>
      let k := tryCandidates env term rm cache rest
      (k.1, .fetch term num :: k.2.1, k.2.2)
    | .ok details =>
      match rm with
      | some r =>
        if details.rclNum = some r then
          (cacheInsert cache r details, [.fetch term num], some details)
        else
          let k := tryCandidates env term rm cache rest
          (k.1, .fetch term num :: k.2.1, k.2.2)
      | none => (cache, [.fetch term num], some details)

/-- The outer term loop of find_sejm_by_title: search each term newest
first; a raising search is recorded and the term skipped; the first
successful candidate wins together with its term. -/
def tryTerms (env : SejmEnv) (rm : Option String) (query : String) :
    SejmCache → List Nat → SejmCache × List SejmCall × Option (SejmProcessR × Nat)
  | cache, [] => (cache, [], none)
  | cache, term :: rest =>
    match env.search_processes term query with
    | .error _ =>
      let k := tryTerms env rm query cache rest
      (k.1, .search term query :: k.2.1, k.2.2)
    | .ok results =>
      let k1 := tryCandidates env term rm cache results
      match k1.2.2 with
      | some d => (k1.1, .search term query :: k1.2.1, some (d, term))
      | none =>
        let k2 := tryTerms env rm query k1.1 rest
        (k2.1, .search term query :: (k1.2.1 ++ k2.2.1), k2.2.2)

/-- Linker.find_sejm_by_title: derive the query (an empty word list returns
immediately with no calls), then run the term loop. -/
def find_sejm_by_title (env : SejmEnv) (terms : List Nat) (cache : SejmCache)
    (title : String) (rm : Option String) :
    SejmCache × List SejmCall × Option (SejmProcessR × Nat) :=
  match searchQuery title with
  | none => (cache, [], none)
  | some q => tryTerms env rm q cache terms

/-- A linked RCL + Sejm project pair (dataclass LinkedProject). -/
structure LinkedProject where
  rm_number : String
  rcl_project : RclProjectR
  sejm_process : Option SejmProcessR := none
  sejm_print : Option String := none
  sejm_term : Option Nat := none
  link_method : String := "rm_number"
deriving DecidableEq, Repr

/-- Linker.link_project: no RM number returns method "none" at once with no
calls; else a verified title search (method "rm_number", the code's tag for
the spec's exact_verified), else an unverified one (method "title_fuzzy"),
else method "not_found" preserving the extracted key.  The updated cache
and the concatenated call trace are returned alongside. -/
def link_project (env : SejmEnv) (terms : List Nat) (cache : SejmCache)
    (rcl_proj : RclProjectR) : LinkedProject × SejmCache × List SejmCall :=
  match extract_rm_number rcl_proj with
  | none =>
    ({ rm_number := "", rcl_project := rcl_proj, sejm_process := none,
       link_method := "none" }, cache, [])
  | some rm =>
    let k1 := find_sejm_by_title env terms cache (rcl_proj.title.getD "") (some rm)
    match k1.2.2 with
    | some (p, term) =>
      ({ rm_number := rm, rcl_project := rcl_proj, sejm_process := some p,
         sejm_print := p.number, sejm_term := some term,
         link_method := "rm_number" }, k1.1, k1.2.1)
    | none =>
      let k2 := find_sejm_by_title env terms k1.1 (rcl_proj.title.getD "") none
      match k2.2.2 with
      | some (p, term) =>
        ({ rm_number := rm, rcl_project := rcl_proj, sejm_process := some p,
           sejm_print := p.number, sejm_term := some term,
           link_method := "title_fuzzy" }, k2.1, k1.2.1 ++ k2.2.1)
      | none =>
        ({ rm_number := rm, rcl_project := rcl_proj, sejm_process := none,
           link_method := "not_found" }, k2.1, k1.2.1 ++ k2.2.1)

/-! ## Unifier enrichment collaborators and unify (src/pipeline/unifier.py)

Each auxiliary lookup is a capability of an explicit environment that either
returns structured data or raises (Except.error), mirroring §6 of the design;
every call site wraps its own try/except. -/

/-- Voting breakdown row returned by the enriched-voting collaborator. -/
structure PartyVotesR where
  party : String
  yes : Nat := 0
  no : Nat := 0
  abstain : Nat := 0
  absent : Nat := 0
deriving DecidableEq, Repr

/-- SejmVoting record returned by find_final_voting. -/
structure SejmVotingR where
  date : Option String := none
  yes : Nat := 0
  no : Nat := 0
  abstain : Nat := 0
  not_participating : Nat := 0
  total_voted : Nat := 0
  description : String := ""
  sitting : Nat := 0
  voting_number : Nat := 0
  pdf_url : Option String := none
  by_party : List PartyVotesR := []
deriving DecidableEq, Repr

/-- CommitteeMember record of the committees collaborator. -/
structure MemberR where
  id : Nat
  name : String
  party : String
  function : Option String := none
deriving DecidableEq, Repr

/-- Committee record of the committees collaborator. -/
structure CommitteeR where
  code : String
  name : String
  appointment_date : Option String := none
  members : List MemberR := []
deriving DecidableEq, Repr

/-- Committee.chairman property: the first member whose function is
przewodniczący. -/
def CommitteeR.chairman (c : CommitteeR) : Option MemberR :=
  c.members.find? (fun m => m.function == some "przewodniczący")

/-- Rapporteur record of the rapporteurs collaborator. -/
structure RapporteurR where
  id : Nat
  name : String
deriving DecidableEq, Repr

/-- SenatePosition record of the senate-position collaborator. -/
structure SenatePositionR where
  date : String
  position : String
  print_number : Option String := none
  decision : Option String := none
deriving DecidableEq, Repr

/-- ParsedAct record of the ELI collaborator (the fields unify reads). -/
structure EliActR where
  announcement_date : Option String := none
  entry_into_force : Option String := none
  pdf_url : Option String := none
  status : Option String := none
  in_force : Option String := none
deriving DecidableEq, Repr

/-- The dict fetch_eli_data builds from a ParsedAct. -/
structure EliDataR where
  publication_date : Option String
  entry_into_force : Option String
  publication_url : Option String
  act_status : Option String
  in_force : Option String
deriving DecidableEq, Repr

/-- Judgment record of the SAOS collaborator. -/
structure JudgmentR where
  case_number : String
  judgment_date : String
  judgment_type : String
  id : Nat
  is_constitutional : Option Bool := none
deriving DecidableEq, Repr

/-- The enrichment collaborators the Unifier consumes. -/
structure EnrichEnv where
  find_final_voting : String → Except Unit (Option SejmVotingR)
  get_process_committees : String → Except Unit (List CommitteeR)
  get_process_rapporteurs : String → Except Unit (List RapporteurR)
  get_senate_position : String → Except Unit (Option SenatePositionR)
  get_president_signature : String → Except Unit (Option String)
  get_parsed_act : String → Except Unit EliActR
  find_cases_for_law : String → Except Unit (List JudgmentR)

/-- Unifier constructor flags; enrich_committees is assigned the
enrich_voting flag in the constructor, and the HAS_* import guards hold in
a complete installation. -/
structure UnifierCfg where
  fetch_eli : Bool := true
  enrich_voting : Bool := true
  fetch_tribunal : Bool := true
deriving DecidableEq, Repr

/-- Unifier.fetch_committees: disabled flag or falsy print number yields [];
a raising call is caught and yields []; otherwise each Committee maps to a
CommitteeInfo via the chairman property. -/
def fetch_committees (cfg : UnifierCfg) (env : EnrichEnv) (pn : Option String) :
    List CommitteeInfo :=
  if cfg.enrich_voting && truthyStr pn then
    match env.get_process_committees (pn.getD "") with
    | .ok cs => cs.map (fun c =>
        { code := c.code
          name := c.name
          chairman_name := c.chairman.map (fun m => m.name)
          chairman_party := c.chairman.map (fun m => m.party) })
    | .error _ => []
  else []

/-- Unifier.fetch_rapporteurs, guarded like fetch_committees. -/
def fetch_rapporteurs (cfg : UnifierCfg) (env : EnrichEnv) (pn : Option String) :
    List RapporteurInfo :=
  if cfg.enrich_voting && truthyStr pn then
    match env.get_process_rapporteurs (pn.getD "") with
    | .ok rs => rs.map (fun r => { id := r.id, name := r.name })
    | .error _ => []
  else []

/-- Unifier.fetch_senate_position, guarded; none on a raising call. -/
def fetch_senate_position (cfg : UnifierCfg) (env : EnrichEnv) (pn : Option String) :
    Option SenatePositionInfo :=
  if cfg.enrich_voting && truthyStr pn then
    match env.get_senate_position (pn.getD "") with
    | .ok (some sp) => some
        { date := sp.date, position := sp.position,
          print_number := sp.print_number, decision := sp.decision }
    | .ok none => none
    | .error _ => none
  else none

/-- Unifier.fetch_president_signature, guarded; none on a raising call. -/
def fetch_president_signature (cfg : UnifierCfg) (env : EnrichEnv) (pn : Option String) :
    Option String :=
  if cfg.enrich_voting && truthyStr pn then
    match env.get_president_signature (pn.getD "") with
    | .ok r => r
    | .error _ => none
  else none

/-- Unifier.fetch_eli_data, guarded; none on a raising call, else the
publication dict built from the parsed act. -/
def fetch_eli_data (cfg : UnifierCfg) (env : EnrichEnv) (eli : String) : Option EliDataR :=
  if cfg.fetch_eli && ¬ eli.toList.isEmpty then
    match env.get_parsed_act eli with
    | .ok act => some
        { publication_date := act.announcement_date
          entry_into_force := act.entry_into_force
          publication_url := act.pdf_url
          act_status := act.status
          in_force := act.in_force }
    | .error _ => none
  else none

/-- Unifier.fetch_tribunal_cases, guarded; [] on a raising call. -/
def fetch_tribunal_cases (cfg : UnifierCfg) (env : EnrichEnv) (eli : String) :
    List TribunalCaseInfo :=
  if cfg.fetch_tribunal && ¬ eli.toList.isEmpty then
    match env.find_cases_for_law eli with
    | .ok js => js.map (fun j =>
        { case_number := j.case_number
          judgment_date := j.judgment_date
          judgment_type := j.judgment_type
          saos_id := j.id
          is_constitutional := j.is_constitutional })
    | .error _ => []
  else []

/-- The Voting built from an enriched SejmVoting (with party breakdown). -/
def mkEnrichedVoting (e : SejmVotingR) : Voting :=
  { date := e.date.getD ""
    yes := e.yes
    no := e.no
    abstain := e.abstain
    total := e.total_voted
    result := if e.yes > e.no then "passed" else "rejected"
    sitting := some e.sitting
    voting_number := some e.voting_number
    pdf_url := e.pdf_url
    by_party := e.by_party.map (fun pv =>
      { party := pv.party, yes := pv.yes, no := pv.no,
        abstain := pv.abstain, absent := pv.absent }) }

/-- The Voting built in the fallback loop of extract_voting (it carries
votingNumber, unlike the stage-conversion one). -/
def mkFallbackVoting (v : RawVoting) : Voting :=
  { mkStageVoting v with voting_number := v.votingNumber }

/-- The fallback loop of extract_voting: scan the stages from the end, the
children of each in order, and return the first voting payload found. -/
def fallback_voting (stages : List SejmStageR) : Option Voting :=
  (stages.reverse.findSome? (fun st => st.children.findSome? (fun c => c.voting))).map
    mkFallbackVoting

/-- Unifier.extract_voting: when enrichment is enabled and the print number
is truthy, try find_final_voting; a raising call is caught, and both an
error and an absent enriched voting fall back to the basic extraction from
the process stages. -/
def extract_voting (cfg : UnifierCfg) (env : EnrichEnv) (sejm : SejmProcessR)
    (pn : Option String) : Option Voting :=
  let enriched : Option Voting :=
    if cfg.enrich_voting && truthyStr pn then
      match env.find_final_voting (pn.getD "") with
      | .ok (some e) => some (mkEnrichedVoting e)
      | .ok none => none
      | .error _ => none
    else none
  match enriched with
  | some v => some v
  | none => fallback_voting sejm.stages

/-- The stage list of the linked process, empty when unlinked. -/
def linkedSejmStages (linked : LinkedProject) : List Stage :=
  match linked.sejm_process with
  | some s => convert_sejm_stages s
  | none => []

/-- The straight-line body of Unifier.unify once the merge has succeeded:
assemble the base project from the RCL record, overlay the Sejm fields and
guarded enrichment results when a process is linked, overlay publication
data when the process carries an ELI, and derive the phase last. -/
def unifyBody (cfg : UnifierCfg) (env : EnrichEnv) (linked : LinkedProject)
    (merged : List Stage) : Project :=
  let rcl := linked.rcl_project
  (
    let base : Project :=
      { rm_number := if linked.rm_number.toList.isEmpty then none else some linked.rm_number
        rcl_id := rcl.project_id
        sejm_print := linked.sejm_print
        title := rcl.title.getD ""
        description := linked.sejm_process.bind (fun s => s.description)
        initiator := rcl.initiator
        document_type := rcl.project_type_name.getD "projekt ustawy"
        creation_date := rcl.creation_date
        last_modified := orTruthy rcl.modification_date
          (linked.sejm_process.bind (fun s => s.changeDate))
        rcl_status := rcl.status
        rcl_url := some ("https://legislacja.rcl.gov.pl/projekt/" ++ pyStr rcl.project_id)
        stages := merged }
    let proj :=
      match linked.sejm_process with
      | none => base
      | some sejm =>
        let sejm_print := orTruthy sejm.number linked.sejm_print
        let withSejm := { base with
          sejm_url := some
            ("https://www.sejm.gov.pl/sejm10.nsf/PrzsebsiegProc.xsp?nr=" ++ pyStr sejm_print)
          sejm_term := sejm.term.getD 10
          passed := sejm.passed
          closure_date := sejm.closureDate
          voting := extract_voting cfg env sejm sejm_print
          committees := fetch_committees cfg env sejm_print
          rapporteurs := fetch_rapporteurs cfg env sejm_print
          senate_position := fetch_senate_position cfg env sejm_print
          president_signature_date := fetch_president_signature cfg env sejm_print }
        if truthyStr sejm.ELI then
          let eli := sejm.ELI.getD ""
          let withPub := { withSejm with
            eli := sejm.ELI
            publication_url := findHref "eli" sejm.links }
          let withEli := match fetch_eli_data cfg env eli with
            | some ed => { withPub with
                publication_date := ed.publication_date
                entry_into_force := ed.entry_into_force
                publication_url :=
                  if truthyStr ed.publication_url then ed.publication_url
                  else withPub.publication_url }
            | none => withPub
          { withEli with tribunal_cases := fetch_tribunal_cases cfg env eli }
        else withSejm
    proj.update_phase)

/-- Unifier.unify: convert both stage lists, merge them (the only step that
can raise out of unify), then run the straight-line body. -/
def unify (cfg : UnifierCfg) (env : EnrichEnv) (linked : LinkedProject) :
    Except Unit Project :=
  match merge_stages (convert_rcl_stages linked.rcl_project) (linkedSejmStages linked) with
  | .error e => .error e
  | .ok merged => .ok (unifyBody cfg env linked merged)

/-- Unifier.unify_all: unify each linked project in input order; the first
uncaught error aborts the batch. -/
def unify_all (cfg : UnifierCfg) (env : EnrichEnv) (lps : List LinkedProject) :
    Except Unit (List Project) :=
  lps.mapM (unify cfg env)

/-! ## Concrete instances used by counterexamples and witnesses -/

/-- A Sejm environment whose searches all succeed with no hits and whose
detail fetches all raise. -/
def envNoHits : SejmEnv :=
  { search_processes := fun _ _ => .ok []
    get_process := fun _ _ => .error () }

/-- A process carrying the RM number RM-123. -/
def procC6 : SejmProcessR := { number := some "100", rclNum := some "RM-123" }

/-- A per-run cache already holding RM-123. -/
def cacheC6 : SejmCache := [("RM-123", procC6)]

/-- A government record whose URL yields RM-123. -/
def projC6 : RclProjectR :=
  { title := some "Zupa pomidorowa", sejm_url := some "http://sejm?Id=RM-123" }

/-- A government record with no URL field. -/
def projC2 : RclProjectR := { title := some "Bez URL" }

/-- A process carrying the RM number RM-9-8 as print 7. -/
def procC3 : SejmProcessR := { number := some "7", rclNum := some "RM-9-8" }

/-- A Sejm environment whose search returns print 7, whose detail is procC3. -/
def envC3 : SejmEnv :=
  { search_processes := fun _ _ => .ok ["7"]
    get_process := fun _ num => if num = "7" then .ok procC3 else .error () }

/-- A government record whose URL yields RM-9-8. -/
def projC3 : RclProjectR :=
  { title := some "Ala ma kota", sejm_url := some "x?Id=RM-9-8" }

/-- An enrichment environment in which every collaborator raises. -/
def envAllErr : EnrichEnv :=
  { find_final_voting := fun _ => .error ()
    get_process_committees := fun _ => .error ()
    get_process_rapporteurs := fun _ => .error ()
    get_senate_position := fun _ => .error ()
    get_president_signature := fun _ => .error ()
    get_parsed_act := fun _ => .error ()
    find_cases_for_law := fun _ => .error () }

/-- A raw voting payload with a yes-no tie. -/
def rawTie : RawVoting :=
  { yes := some 100, no := some 100, abstain := some 3, totalVoted := some 203 }

/-- A process whose last stage carries the tie voting payload. -/
def sejmTie : SejmProcessR :=
  { number := some "55", passed := some true,
    stages := [{ stageName := some "III czytanie",
                 children := [{ voting := some rawTie }] }] }

/-- A linked project pointing at sejmTie. -/
def lpTie : LinkedProject :=
  { rm_number := "RM-1", rcl_project := {}, sejm_process := some sejmTie,
    sejm_print := some "55", link_method := "rm_number" }

/-- C1: the phase resolver agrees with the spec's strict priority order
everywhere; a set publication key yields Published regardless of stage
content; with no publication data a recorded passed = False yields Rejected
regardless of the last stage name; and re-running the resolver on the
updated project yields the same phase (idempotence). -/
theorem determine_phase_priority_order (p : Project) :
    p.determine_phase = phaseSpec p ∧
    (truthyStr p.eli = true → p.determine_phase = .published) ∧
    (truthyStr p.eli = false → truthyStr p.publication_date = false →
      p.passed = some false → p.determine_phase = .rejected) ∧
    (p.update_phase).determine_phase = p.determine_phase := by
  refine ⟨rfl, ?_, ?_, rfl⟩
  · intro h
    unfold Project.determine_phase
    rw [h]
    rfl
  · intro h1 h2 h3
    unfold Project.determine_phase
    rw [h1, h2, h3]
    rfl

/-- Witness for C1 at a concrete project: passed = False together with a last
sejm stage whose name mentions "Senat" still resolves to rejected. -/
theorem determine_phase_priority_order_witness :
    ({ title := "x", passed := some false,
       stages := [{ date := none, source := "sejm",
                    stage_name := "Stanowisko Senatu" : Stage }] : Project
     }).determine_phase = .rejected := by
  have h := determine_phase_priority_order
    { title := "x", passed := some false,
      stages := [{ date := none, source := "sejm",
                   stage_name := "Stanowisko Senatu" : Stage }] }
  exact h.2.2.1 (by decide) (by decide) rfl

theorem Phase.ofValue_value (ph : Phase) : Phase.ofValue ph.value = some ph := by
  cases ph <;> decide

@[simp] theorem votingFromD_toD (v : Voting) : votingFromD v.toD = v := by
  cases v
  simp [Voting.toD, votingFromD, PartyVote.toD, List.map_map, Function.comp_def]

@[simp] theorem stageFromD_toD (s : Stage) : stageFromD s.toD = s := by
  cases s with
  | mk date src name ty act dec docs url kat cc pn vo =>
    simp [Stage.toD, stageFromD]
    cases vo <;> simp

/-- C10: deserializing the serialized dictionary form of a Project
round-trips to an equal Project. -/
theorem project_from_dict_to_dict_roundtrip (p : Project) :
    Project.from_dict (Project.to_dict p) = some p := by
  cases p with
  | mk rm rcl sp eli title ts de des ini dt cd lm ph pa vo st rs ru su tm cl co ra sen pre tc pd pu ef =>
    simp only [Project.to_dict, Project.from_dict, Phase.ofValue_value]
    simp [List.map_map, Function.comp_def, CommitteeInfo.toD, RapporteurInfo.toD,
          SenatePositionInfo.toD, TribunalCaseInfo.toD, List.isEmpty_iff]

/-- C4 counterexample: "01-03-2024" is parseable by the third format
(day-month-year), yet its sort key is the far-past sentinel, not that parse
result (the length-ten guard routes it to "%Y-%m-%d", whose failure does not
fall through); and merging the spec's example stages returns an error
(aware timestamp against naive sentinel), not a government-first list. -/
theorem sort_key_not_first_successful_format :
    (parseDMY "01-03-2024".toList).isSome = true ∧
    sort_key { date := some "01-03-2024", source := "rcl", stage_name := "Konsultacje" } =
      sentinelFor "rcl" ∧
    parseDMY "01-03-2024".toList ≠
      some (sort_key { date := some "01-03-2024", source := "rcl",
                       stage_name := "Konsultacje" }).stamp ∧
    merge_stages [{ date := some "01-03-2024", source := "rcl", stage_name := "Konsultacje" }]
      [{ date := some "2024-04-01T10:00:00Z", source := "sejm", stage_name := "I czytanie" }] =
      .error () := by
  refine ⟨by decide, by decide, by decide, rfl⟩

/-- C4 amended: the date parser is a guard dispatch over the ordered format
rules with sentinel fallback and no fallthrough (sort_key agrees with the
rule-list description everywhere), and on the spec's example input the merge
raises instead of ordering the government stage first. -/
theorem sort_key_guard_dispatch (st : Stage) :
    sort_key st = sortKeySpec st ∧
    merge_stages [{ date := some "01-03-2024", source := "rcl", stage_name := "Konsultacje" }]
      [{ date := some "2024-04-01T10:00:00Z", source := "sejm", stage_name := "I czytanie" }] =
      .error () := by
  constructor
  · unfold sort_key sortKeySpec
    match st.date with
    | none => rfl
    | some ds =>
      by_cases h1 : ds.data = [] <;>
        by_cases h2 : guardT ds.data = true <;>
        by_cases h3 : guardYMD ds.data = true <;>
        by_cases h4 : guardDMY ds.data = true <;>
        simp [List.find?, String.toList, h1, h2, h3, h4]
  · rfl

/-- Witness for C4's amended theorem at a concrete stage: a length-ten
day-month-year date gets the far-past sentinel under both descriptions. -/
theorem sort_key_guard_dispatch_witness :
    sort_key { date := some "05-07-2024", source := "rcl", stage_name := "Uzgodnienia" } =
      sortKeySpec { date := some "05-07-2024", source := "rcl", stage_name := "Uzgodnienia" } ∧
    sortKeySpec { date := some "05-07-2024", source := "rcl", stage_name := "Uzgodnienia" } =
      sentinelFor "rcl" :=
  ⟨(sort_key_guard_dispatch _).1, by decide⟩

/-- Filtering by a fixed-key predicate commutes with orderedInsert under the
key order: the inserted element lands in front of the equal-key suffix. -/
theorem filter_orderedInsert_key (f : Stage → Int) (p : Stage → Bool)
    (hp : ∀ x y, p x = true → p y = true → f x = f y)
    (hf : ∀ x y, stageLE x y ↔ f x ≤ f y)
    (a : Stage) (l : List Stage) :
    (l.orderedInsert stageLE a).filter p =
      if p a then a :: l.filter p else l.filter p := by
  induction l with
  | nil =>
    simp only [List.orderedInsert, List.filter]
    cases p a <;> simp
  | cons b l ih =>
    by_cases hab : stageLE a b
    · simp only [List.orderedInsert, if_pos hab]
      by_cases hpa : p a = true <;> simp [List.filter, hpa]
    · simp only [List.orderedInsert, if_neg hab]
      by_cases hpa : p a = true
      · have hpb : p b = false := by
          by_contra hpb
          have hfb : p b = true := by revert hpb; cases p b <;> simp
          exact hab ((hf a b).mpr (le_of_eq (hp a b hpa hfb)))
        simp [List.filter, hpb, ih, hpa]
      · have hpa' : p a = false := by revert hpa; cases p a <;> simp
        by_cases hpb : p b = true <;> simp [List.filter, hpa', hpb, ih, hpa]

/-- Filtering by a fixed-key predicate is invariant under insertionSort:
stability of the merge order for equal keys. -/
theorem filter_insertionSort_key (f : Stage → Int) (p : Stage → Bool)
    (hp : ∀ x y, p x = true → p y = true → f x = f y)
    (hf : ∀ x y, stageLE x y ↔ f x ≤ f y)
    (l : List Stage) :
    (l.insertionSort stageLE).filter p = l.filter p := by
  induction l with
  | nil => rfl
  | cons a l ih =>
    simp only [List.insertionSort, filter_orderedInsert_key f p hp hf, ih]
    by_cases hpa : p a = true <;> simp [List.filter, hpa]

/-- C5: whenever the merge succeeds, the merged list is sorted non-decreasing
by the sort key, and the sort is stable: for every key value the subsequence
of stages with that key equals the government stages with that key (in input
order) followed by the parliamentary ones (in input order). -/
theorem merge_stages_sorted_and_stable (rcl_stages sejm_stages merged : List Stage)
    (h : merge_stages rcl_stages sejm_stages = .ok merged) :
    List.Sorted stageLE merged ∧
    ∀ k : DT, merged.filter (fun s => sort_key s = k) =
      rcl_stages.filter (fun s => sort_key s = k) ++
        sejm_stages.filter (fun s => sort_key s = k) := by
  have hmerged : merged = (rcl_stages ++ sejm_stages).insertionSort stageLE := by
    unfold merge_stages at h
    by_cases hc : (rcl_stages ++ sejm_stages).all (fun s => (sort_key s).aware = false) ∨
        (rcl_stages ++ sejm_stages).all (fun s => (sort_key s).aware = true)
    · rw [if_pos hc] at h
      exact (Except.ok.injEq _ _ |>.mp h).symm
    · rw [if_neg hc] at h
      exact absurd h (by simp)
  subst hmerged
  constructor
  · exact List.sorted_insertionSort stageLE _
  · intro k
    rw [filter_insertionSort_key (fun s => (sort_key s).stamp)
      (fun s => sort_key s = k) ?_ ?_ (rcl_stages ++ sejm_stages)]
    · exact List.filter_append _ _
    · intro x y hx hy
      simp only [decide_eq_true_eq] at hx hy
      show (sort_key x).stamp = (sort_key y).stamp
      rw [hx, hy]
    · intro x y
      exact Iff.rfl

/-- Witness for C5 at concrete stage lists: a dated government stage and an
undated parliamentary stage merge in that order, sorted and stable. -/
theorem merge_stages_sorted_and_stable_witness :
    List.Sorted stageLE
      [{ date := some "2024-01-05", source := "rcl", stage_name := "Konsultacje" },
       { date := none, source := "sejm", stage_name := "I czytanie" }] ∧
    ([{ date := some "2024-01-05", source := "rcl", stage_name := "Konsultacje" },
      { date := none, source := "sejm", stage_name := "I czytanie" : Stage }].filter
        (fun s => sort_key s = sentinelFor "sejm")) =
      ([{ date := some "2024-01-05", source := "rcl", stage_name := "Konsultacje" : Stage }].filter
        (fun s => sort_key s = sentinelFor "sejm")) ++
      ([{ date := none, source := "sejm", stage_name := "I czytanie" : Stage }].filter
        (fun s => sort_key s = sentinelFor "sejm")) := by
  have h := merge_stages_sorted_and_stable
    [{ date := some "2024-01-05", source := "rcl", stage_name := "Konsultacje" }]
    [{ date := none, source := "sejm", stage_name := "I czytanie" }]
    [{ date := some "2024-01-05", source := "rcl", stage_name := "Konsultacje" },
     { date := none, source := "sejm", stage_name := "I czytanie" }]
    rfl
  exact ⟨h.1, h.2 (sentinelFor "sejm")⟩

/-! ## Linker theorems -/

/-- C2: a government record whose URL yields no cross-reference key links to
method "none" with an empty key, no matched process, an untouched cache and
an empty call trace. -/
theorem link_no_key_returns_none_with_no_calls (env : SejmEnv) (terms : List Nat)
    (cache : SejmCache) (proj : RclProjectR) (h : extract_rm_number proj = none) :
    link_project env terms cache proj =
      ({ rm_number := "", rcl_project := proj, sejm_process := none,
         link_method := "none" }, cache, []) := by
  unfold link_project
  rw [h]

/-- Witness for C2: the record with no URL field gets method "none", an
empty key and zero calls. -/
theorem link_no_key_returns_none_with_no_calls_witness :
    extract_rm_number projC2 = none ∧
    link_project envNoHits [10, 9] [] projC2 =
      ({ rm_number := "", rcl_project := projC2, sejm_process := none,
         link_method := "none" }, [], []) :=
  ⟨rfl, link_no_key_returns_none_with_no_calls envNoHits [10, 9] [] projC2 rfl⟩

/-- In the candidate loop with an expected RM number, any returned process
has that number embedded as its rclNum. -/
theorem tryCandidates_verified (env : SejmEnv) (term : Nat) (r : String) :
    ∀ (nums : List String) (cache : SejmCache) (d : SejmProcessR),
      (tryCandidates env term (some r) cache nums).2.2 = some d → d.rclNum = some r := by
  intro nums
  induction nums with
  | nil => intro cache d h; exact absurd h (by simp [tryCandidates])
  | cons num rest ih =>
    intro cache d h
    rw [tryCandidates] at h
    cases henv : env.get_process term num with
    | error e => rw [henv] at h; dsimp only at h; exact ih cache d h
    | ok details =>
      rw [henv] at h
      dsimp only at h
      by_cases hr : details.rclNum = some r
      · rw [if_pos hr] at h
        dsimp only at h
        cases h
        exact hr
      · rw [if_neg hr] at h
        dsimp only at h
        exact ih cache d h

/-- In the term loop with an expected RM number, any returned process has
that number embedded as its rclNum. -/
theorem tryTerms_verified (env : SejmEnv) (r : String) (query : String) :
    ∀ (terms : List Nat) (cache : SejmCache) (d : SejmProcessR) (tm : Nat),
      (tryTerms env (some r) query cache terms).2.2 = some (d, tm) → d.rclNum = some r := by
  intro terms
  induction terms with
  | nil => intro cache d tm h; exact absurd h (by simp [tryTerms])
  | cons term rest ih =>
    intro cache d tm h
    rw [tryTerms] at h
    cases henv : env.search_processes term query with
    | error e => rw [henv] at h; dsimp only at h; exact ih cache d tm h
    | ok results =>
      rw [henv] at h
      dsimp only at h
      cases hk : (tryCandidates env term (some r) cache results).2.2 with
      | some p =>
        rw [hk] at h
        dsimp only at h
        simp only [Option.some.injEq, Prod.mk.injEq] at h
        rw [← h.1]
        exact tryCandidates_verified env term r results cache p hk
      | none =>
        rw [hk] at h
        dsimp only at h
        exact ih _ d tm h

/-- Any process returned by a verified title search carries the expected
RM number. -/
theorem find_sejm_by_title_verified (env : SejmEnv) (terms : List Nat)
    (cache : SejmCache) (title : String) (r : String) (d : SejmProcessR) (tm : Nat)
    (h : (find_sejm_by_title env terms cache title (some r)).2.2 = some (d, tm)) :
    d.rclNum = some r := by
  unfold find_sejm_by_title at h
  cases hq : searchQuery title with
  | none => rw [hq] at h; cases h
  | some q => rw [hq] at h; exact tryTerms_verified env r q terms cache d tm h

/-- C3: every link result's method tag lies in the four-element set ("none",
"rm_number" — the code's tag for the spec's exact_verified —, "title_fuzzy",
"not_found"), and on a verified match the matched process's embedded key
equals the result's key. -/
theorem link_method_cases_and_verified (env : SejmEnv) (terms : List Nat)
    (cache : SejmCache) (proj : RclProjectR) :
    ((link_project env terms cache proj).1.link_method = "none" ∨
     (link_project env terms cache proj).1.link_method = "rm_number" ∨
     (link_project env terms cache proj).1.link_method = "title_fuzzy" ∨
     (link_project env terms cache proj).1.link_method = "not_found") ∧
    ((link_project env terms cache proj).1.link_method = "rm_number" →
      ∀ p, (link_project env terms cache proj).1.sejm_process = some p →
        p.rclNum = some (link_project env terms cache proj).1.rm_number) := by
  unfold link_project
  cases hrm : extract_rm_number proj with
  | none =>
    try dsimp only
    exact ⟨Or.inl rfl, fun _ p hp => by cases hp⟩
  | some rm =>
    try dsimp only
    cases h1 : (find_sejm_by_title env terms cache (proj.title.getD "") (some rm)).2.2 with
    | some pt =>
      obtain ⟨p, tm⟩ := pt
      try dsimp only
      refine ⟨Or.inr (Or.inl rfl), fun _ q hq => ?_⟩
      try dsimp only at hq
      cases hq
      exact find_sejm_by_title_verified env terms cache _ rm p tm h1
    | none =>
      try dsimp only
      cases h2 : (find_sejm_by_title env terms
          ((find_sejm_by_title env terms cache (proj.title.getD "") (some rm)).1)
          (proj.title.getD "") none).2.2 with
      | some pt =>
        obtain ⟨p, tm⟩ := pt
        try dsimp only
        exact ⟨Or.inr (Or.inr (Or.inl rfl)), fun habs => absurd habs (by decide)⟩
      | none =>
        try dsimp only
        exact ⟨Or.inr (Or.inr (Or.inr rfl)), fun habs => absurd habs (by decide)⟩

/-- Witness for C3 at a concrete environment: the verified match for RM-9-8
returns a process whose rclNum equals the result's key. -/
theorem link_method_cases_and_verified_witness :
    procC3.rclNum = some (link_project envC3 [10, 9] [] projC3).1.rm_number ∧
    (link_project envC3 [10, 9] [] projC3).1.link_method = "rm_number" :=
  ⟨(link_method_cases_and_verified envC3 [10, 9] [] projC3).2 rfl procC3 rfl, rfl⟩

/-- The candidate loop never reads the cache: its call trace and result are
the same for any cache contents. -/
theorem tryCandidates_cache_independent (env : SejmEnv) (term : Nat) (rm : Option String) :
    ∀ (nums : List String) (c1 c2 : SejmCache),
      (tryCandidates env term rm c1 nums).2 = (tryCandidates env term rm c2 nums).2 := by
  intro nums
  induction nums with
  | nil => intro c1 c2; rfl
  | cons num rest ih =>
    intro c1 c2
    rw [tryCandidates, tryCandidates]
    cases henv : env.get_process term num with
    | error e =>
      dsimp only
      rw [Prod.mk.injEq]
      have h := ih c1 c2
      exact ⟨by rw [h], by rw [h]⟩
    | ok details =>
      cases rm with
      | none => dsimp only
      | some r =>
        by_cases hr : details.rclNum = some r
        · simp only [if_pos hr]
        · simp only [if_neg hr]
          rw [Prod.mk.injEq]
          have h := ih c1 c2
          exact ⟨by rw [h], by rw [h]⟩

/-- The term loop never reads the cache: its call trace and result are the
same for any cache contents. -/
theorem tryTerms_cache_independent (env : SejmEnv) (rm : Option String) (query : String) :
    ∀ (terms : List Nat) (c1 c2 : SejmCache),
      (tryTerms env rm query c1 terms).2 = (tryTerms env rm query c2 terms).2 := by
  intro terms
  induction terms with
  | nil => intro c1 c2; rfl
  | cons term rest ih =>
    intro c1 c2
    rw [tryTerms, tryTerms]
    cases henv : env.search_processes term query with
    | error e =>
      dsimp only
      rw [Prod.mk.injEq]
      have h := ih c1 c2
      exact ⟨by rw [h], by rw [h]⟩
    | ok results =>
      dsimp only
      have hc := tryCandidates_cache_independent env term rm results c1 c2
      cases hk : (tryCandidates env term rm c1 results).2.2 with
      | some d =>
        have hk2 : (tryCandidates env term rm c2 results).2.2 = some d := by
          rw [← congrArg Prod.snd hc]; exact hk
        rw [hk2]
        dsimp only
        rw [Prod.mk.injEq]
        exact ⟨by rw [congrArg Prod.fst hc], rfl⟩
      | none =>
        have hk2 : (tryCandidates env term rm c2 results).2.2 = none := by
          rw [← congrArg Prod.snd hc]; exact hk
        rw [hk2]
        dsimp only
        rw [Prod.mk.injEq]
        have h := ih (tryCandidates env term rm c1 results).1 (tryCandidates env term rm c2 results).1
        exact ⟨by rw [congrArg Prod.fst hc, h], by rw [h]⟩

/-- The title search never reads the cache. -/
theorem find_sejm_by_title_cache_independent (env : SejmEnv) (terms : List Nat)
    (title : String) (rm : Option String) (c1 c2 : SejmCache) :
    (find_sejm_by_title env terms c1 title rm).2 =
      (find_sejm_by_title env terms c2 title rm).2 := by
  unfold find_sejm_by_title
  cases hq : searchQuery title with
  | none => rfl
  | some q => exact tryTerms_cache_independent env rm q terms c1 c2

/-- C6 amended: link_project never consults the per-run cache.  Its
LinkResult and its call trace are identical for any two cache contents; the
cache is only written (on a verified match), and the sole cache reader,
find_sejm_by_rm_number, is never invoked by link_project. -/
theorem link_project_cache_independent (env : SejmEnv) (terms : List Nat)
    (c1 c2 : SejmCache) (proj : RclProjectR) :
    (link_project env terms c1 proj).1 = (link_project env terms c2 proj).1 ∧
    (link_project env terms c1 proj).2.2 = (link_project env terms c2 proj).2.2 := by
  unfold link_project
  cases hrm : extract_rm_number proj with
  | none => exact ⟨rfl, rfl⟩
  | some rm =>
    try dsimp only
    have h1 := find_sejm_by_title_cache_independent env terms (proj.title.getD "")
      (some rm) c1 c2
    cases hk : (find_sejm_by_title env terms c1 (proj.title.getD "") (some rm)).2.2 with
    | some pt =>
      obtain ⟨p, tm⟩ := pt
      have hk2 : (find_sejm_by_title env terms c2 (proj.title.getD "") (some rm)).2.2 =
          some (p, tm) := by
        rw [← congrArg Prod.snd h1]; exact hk
      rw [hk2]
      try dsimp only
      exact ⟨rfl, by rw [congrArg Prod.fst h1]⟩
    | none =>
      have hk2 : (find_sejm_by_title env terms c2 (proj.title.getD "") (some rm)).2.2 =
          none := by
        rw [← congrArg Prod.snd h1]; exact hk
      rw [hk2]
      try dsimp only
      have h2 := find_sejm_by_title_cache_independent env terms (proj.title.getD "") none
        (find_sejm_by_title env terms c1 (proj.title.getD "") (some rm)).1
        (find_sejm_by_title env terms c2 (proj.title.getD "") (some rm)).1
      cases hj : (find_sejm_by_title env terms
          (find_sejm_by_title env terms c1 (proj.title.getD "") (some rm)).1
          (proj.title.getD "") none).2.2 with
      | some pt =>
        obtain ⟨p, tm⟩ := pt
        have hj2 : (find_sejm_by_title env terms
            (find_sejm_by_title env terms c2 (proj.title.getD "") (some rm)).1
            (proj.title.getD "") none).2.2 = some (p, tm) := by
          rw [← congrArg Prod.snd h2]; exact hj
        rw [hj2]
        try dsimp only
        exact ⟨rfl, by rw [congrArg Prod.fst h1, congrArg Prod.fst h2]⟩
      | none =>
        have hj2 : (find_sejm_by_title env terms
            (find_sejm_by_title env terms c2 (proj.title.getD "") (some rm)).1
            (proj.title.getD "") none).2.2 = none := by
          rw [← congrArg Prod.snd h2]; exact hj
        rw [hj2]
        try dsimp only
        exact ⟨rfl, by rw [congrArg Prod.fst h1, congrArg Prod.fst h2]⟩

/-- C6 counterexample: with RM-123 already cached (find_sejm_by_rm_number
would return it), link_project on a record whose URL yields RM-123 still
issues four search calls and returns method "not_found" with no matched
process — not the cached candidate with zero calls. -/
theorem cached_key_does_not_short_circuit :
    find_sejm_by_rm_number cacheC6 "RM-123" = some procC6 ∧
    extract_rm_number projC6 = some "RM-123" ∧
    (link_project envNoHits [10, 9] cacheC6 projC6).1.link_method = "not_found" ∧
    (link_project envNoHits [10, 9] cacheC6 projC6).1.sejm_process = none ∧
    (link_project envNoHits [10, 9] cacheC6 projC6).2.2 =
      [.search 10 "Zupa pomidorowa", .search 9 "Zupa pomidorowa",
       .search 10 "Zupa pomidorowa", .search 9 "Zupa pomidorowa"] := by
  refine ⟨rfl, by decide, by decide, by decide, by decide⟩

/-! ## Voting and stage theorems -/

/-- The child fold of convert_sejm_stages only ever produces votings whose
result is "passed" exactly on a strict yes majority. -/
theorem childFold_result (l : List ChildR) :
    ∀ (acc : Option Voting),
      (∀ w, acc = some w → w.result = if w.yes > w.no then "passed" else "rejected") →
      ∀ v, l.foldl (fun a c => match c.voting with
          | some rv => some (mkStageVoting rv)
          | none => a) acc = some v →
        v.result = if v.yes > v.no then "passed" else "rejected" := by
  induction l with
  | nil => intro acc hacc v hv; exact hacc v hv
  | cons c t ih =>
    intro acc hacc v hv
    rw [List.foldl_cons] at hv
    cases hc : c.voting with
    | none =>
      rw [hc] at hv
      exact ih acc hacc v hv
    | some rv =>
      rw [hc] at hv
      refine ih _ ?_ v hv
      intro w hw
      cases hw
      rfl

/-- C8: every Voting the pipeline constructs — in the parliamentary stage
conversion, in the enriched final-voting path, and in the fallback
extraction — has result "passed" exactly when yes strictly exceeds no and
"rejected" otherwise (so a tie is "rejected", and abstain and total counts
never influence the result). -/
theorem voting_result_is_yes_majority :
    (∀ (sejm : SejmProcessR) (st : Stage), st ∈ convert_sejm_stages sejm →
      ∀ v, st.voting = some v →
        v.result = if v.yes > v.no then "passed" else "rejected") ∧
    (∀ (cfg : UnifierCfg) (env : EnrichEnv) (sejm : SejmProcessR) (pn : Option String)
      (v : Voting), extract_voting cfg env sejm pn = some v →
        v.result = if v.yes > v.no then "passed" else "rejected") := by
  constructor
  · intro sejm st hst v hv
    unfold convert_sejm_stages at hst
    rw [List.mem_map] at hst
    obtain ⟨raw, hmem, hraw⟩ := hst
    subst hraw
    exact childFold_result raw.children none (fun w hw => by cases hw) v hv
  · intro cfg env sejm pn v hv
    unfold extract_voting at hv
    cases he : (if cfg.enrich_voting && truthyStr pn then
        match env.find_final_voting (pn.getD "") with
        | .ok (some e) => some (mkEnrichedVoting e)
        | .ok none => none
        | .error _ => none
      else none) with
    | some w =>
      rw [he] at hv
      try dsimp only at hv
      cases hv
      by_cases hflag : (cfg.enrich_voting && truthyStr pn) = true
      · rw [if_pos hflag] at he
        cases henv : env.find_final_voting (pn.getD "") with
        | error e => rw [henv] at he; cases he
        | ok o =>
          cases o with
          | none => rw [henv] at he; cases he
          | some e =>
            rw [henv] at he
            cases he
            rfl
      · rw [if_neg hflag] at he; cases he
    | none =>
      rw [he] at hv
      try dsimp only at hv
      unfold fallback_voting at hv
      cases hf : (sejm.stages.reverse.findSome? fun st =>
          st.children.findSome? fun c => c.voting) with
      | none => rw [hf] at hv; cases hv
      | some raw =>
        rw [hf] at hv
        try dsimp only at hv
        cases hv
        rfl

/-- Witness for C8 at the tie payload: a 100 to 100 voting extracted through
the fallback path is "rejected". -/
theorem voting_result_is_yes_majority_witness :
    extract_voting {} envAllErr sejmTie none = some (mkFallbackVoting rawTie) ∧
    (mkFallbackVoting rawTie).result = "rejected" := by
  refine ⟨rfl, ?_⟩
  have h := voting_result_is_yes_majority.2 {} envAllErr sejmTie none
    (mkFallbackVoting rawTie) rfl
  rw [h]
  decide

/-- C9: the parliamentary stage conversion marks every stage inactive, so
get_current_stage's active scan can only ever select a stage that is not
parliamentary-origin, and with no active stage at all it falls back to the
last merged stage (none for an empty list). -/
theorem sejm_stages_inactive_current_stage :
    (∀ (sejm : SejmProcessR) (st : Stage), st ∈ convert_sejm_stages sejm →
      st.is_active = false) ∧
    (∀ (p : Project), (∀ st ∈ p.stages, st.source = "sejm" → st.is_active = false) →
      ∀ st, p.get_current_stage = some st → st.is_active = true → st.source ≠ "sejm") ∧
    (∀ (p : Project), (∀ st ∈ p.stages, st.is_active = false) →
      p.get_current_stage = p.stages.getLast?) := by
  refine ⟨?_, ?_, ?_⟩
  · intro sejm st hst
    unfold convert_sejm_stages at hst
    rw [List.mem_map] at hst
    obtain ⟨raw, hmem, hraw⟩ := hst
    subst hraw
    rfl
  · intro p hp st hcur hact hsejm
    unfold Project.get_current_stage at hcur
    cases hf : p.stages.reverse.find? (fun s => s.is_active) with
    | some s =>
      rw [hf] at hcur
      cases hcur
      exact absurd hact (by rw [hp st (List.mem_reverse.mp
        (List.mem_of_find?_eq_some hf)) hsejm]; decide)
    | none =>
      rw [hf] at hcur
      have hmem : st ∈ p.stages := List.mem_of_mem_getLast? hcur
      rw [hp st hmem hsejm] at hact
      cases hact
  · intro p hp
    unfold Project.get_current_stage
    have hf : p.stages.reverse.find? (fun s => s.is_active) = none := by
      rw [List.find?_eq_none]
      intro x hx
      rw [hp x (List.mem_reverse.mp hx)]
      decide
    rw [hf]

/-- Witness for C9 at a concrete project: one active rcl stage followed by
a converted sejm stage; the current stage is the rcl one, and an
all-inactive project falls back to its last stage. -/
theorem sejm_stages_inactive_current_stage_witness :
    ({ stages := [{ date := none, source := "rcl", stage_name := "Uzgodnienia",
                    is_active := true },
                  { date := none, source := "sejm", stage_name := "I czytanie" }] : Project
     }).get_current_stage =
      some { date := none, source := "rcl", stage_name := "Uzgodnienia",
             is_active := true } ∧
    ("rcl" : String) ≠ "sejm" ∧
    ({ stages := [{ date := none, source := "sejm", stage_name := "I czytanie" }] : Project
     }).get_current_stage = some { date := none, source := "sejm",
                                   stage_name := "I czytanie" } := by
  refine ⟨by decide, ?_, ?_⟩
  · have h := sejm_stages_inactive_current_stage.2.1
      { stages := [{ date := none, source := "rcl", stage_name := "Uzgodnienia",
                     is_active := true },
                   { date := none, source := "sejm", stage_name := "I czytanie" }] }
      (by decide)
      { date := none, source := "rcl", stage_name := "Uzgodnienia", is_active := true }
      (by decide) (by decide)
    exact fun habs => h (by rw [habs])
  · have h := sejm_stages_inactive_current_stage.2.2
      { stages := [{ date := none, source := "sejm", stage_name := "I czytanie" }] }
      (by decide)
    rw [h]
    decide

/-! ## Enrichment-guard theorems -/

/-- The committees field of the assembled project. -/
theorem unifyBody_committees (cfg : UnifierCfg) (env : EnrichEnv) (lp : LinkedProject)
    (merged : List Stage) :
    (unifyBody cfg env lp merged).committees =
      match lp.sejm_process with
      | none => []
      | some sejm => fetch_committees cfg env (orTruthy sejm.number lp.sejm_print) := by
  unfold unifyBody Project.update_phase
  cases lp.sejm_process with
  | none => rfl
  | some sejm =>
    dsimp only
    by_cases hg : truthyStr sejm.ELI = true
    · rw [if_pos hg]
      cases fetch_eli_data cfg env (sejm.ELI.getD "") <;> rfl
    · rw [if_neg hg]

/-- The rapporteurs field of the assembled project. -/
theorem unifyBody_rapporteurs (cfg : UnifierCfg) (env : EnrichEnv) (lp : LinkedProject)
    (merged : List Stage) :
    (unifyBody cfg env lp merged).rapporteurs =
      match lp.sejm_process with
      | none => []
      | some sejm => fetch_rapporteurs cfg env (orTruthy sejm.number lp.sejm_print) := by
  unfold unifyBody Project.update_phase
  cases lp.sejm_process with
  | none => rfl
  | some sejm =>
    dsimp only
    by_cases hg : truthyStr sejm.ELI = true
    · rw [if_pos hg]
      cases fetch_eli_data cfg env (sejm.ELI.getD "") <;> rfl
    · rw [if_neg hg]

/-- The senate position field of the assembled project. -/
theorem unifyBody_senate_position (cfg : UnifierCfg) (env : EnrichEnv) (lp : LinkedProject)
    (merged : List Stage) :
    (unifyBody cfg env lp merged).senate_position =
      match lp.sejm_process with
      | none => none
      | some sejm => fetch_senate_position cfg env (orTruthy sejm.number lp.sejm_print) := by
  unfold unifyBody Project.update_phase
  cases lp.sejm_process with
  | none => rfl
  | some sejm =>
    dsimp only
    by_cases hg : truthyStr sejm.ELI = true
    · rw [if_pos hg]
      cases fetch_eli_data cfg env (sejm.ELI.getD "") <;> rfl
    · rw [if_neg hg]

/-- The president signature field of the assembled project. -/
theorem unifyBody_president (cfg : UnifierCfg) (env : EnrichEnv) (lp : LinkedProject)
    (merged : List Stage) :
    (unifyBody cfg env lp merged).president_signature_date =
      match lp.sejm_process with
      | none => none
      | some sejm => fetch_president_signature cfg env (orTruthy sejm.number lp.sejm_print) := by
  unfold unifyBody Project.update_phase
  cases lp.sejm_process with
  | none => rfl
  | some sejm =>
    dsimp only
    by_cases hg : truthyStr sejm.ELI = true
    · rw [if_pos hg]
      cases fetch_eli_data cfg env (sejm.ELI.getD "") <;> rfl
    · rw [if_neg hg]

/-- The voting field of the assembled project. -/
theorem unifyBody_voting (cfg : UnifierCfg) (env : EnrichEnv) (lp : LinkedProject)
    (merged : List Stage) :
    (unifyBody cfg env lp merged).voting =
      match lp.sejm_process with
      | none => none
      | some sejm => extract_voting cfg env sejm (orTruthy sejm.number lp.sejm_print) := by
  unfold unifyBody Project.update_phase
  cases lp.sejm_process with
  | none => rfl
  | some sejm =>
    dsimp only
    by_cases hg : truthyStr sejm.ELI = true
    · rw [if_pos hg]
      cases fetch_eli_data cfg env (sejm.ELI.getD "") <;> rfl
    · rw [if_neg hg]

/-- The tribunal cases field of the assembled project. -/
theorem unifyBody_tribunal (cfg : UnifierCfg) (env : EnrichEnv) (lp : LinkedProject)
    (merged : List Stage) :
    (unifyBody cfg env lp merged).tribunal_cases =
      match lp.sejm_process with
      | none => []
      | some sejm =>
        if truthyStr sejm.ELI then fetch_tribunal_cases cfg env (sejm.ELI.getD "")
        else [] := by
  unfold unifyBody Project.update_phase
  cases lp.sejm_process with
  | none => rfl
  | some sejm =>
    dsimp only
    by_cases hg : truthyStr sejm.ELI = true
    · rw [if_pos hg, if_pos hg]
    · rw [if_neg hg, if_neg hg]

/-- The publication date and entry-into-force fields of the assembled
project. -/
theorem unifyBody_publication (cfg : UnifierCfg) (env : EnrichEnv) (lp : LinkedProject)
    (merged : List Stage) :
    ((unifyBody cfg env lp merged).publication_date,
     (unifyBody cfg env lp merged).entry_into_force) =
      match lp.sejm_process with
      | none => (none, none)
      | some sejm =>
        if truthyStr sejm.ELI then
          match fetch_eli_data cfg env (sejm.ELI.getD "") with
          | some ed => (ed.publication_date, ed.entry_into_force)
          | none => (none, none)
        else (none, none) := by
  unfold unifyBody Project.update_phase
  cases lp.sejm_process with
  | none => rfl
  | some sejm =>
    dsimp only
    by_cases hg : truthyStr sejm.ELI = true
    · rw [if_pos hg, if_pos hg]
      cases fetch_eli_data cfg env (sejm.ELI.getD "") <;> rfl
    · rw [if_neg hg, if_neg hg]

/-- A raising committees collaborator leaves fetch_committees at []. -/
theorem fetch_committees_of_error (cfg : UnifierCfg) (env : EnrichEnv) (pn : Option String)
    (h : env.get_process_committees (pn.getD "") = .error ()) :
    fetch_committees cfg env pn = [] := by
  unfold fetch_committees
  by_cases hb : (cfg.enrich_voting && truthyStr pn) = true
  · rw [if_pos hb, h]
  · rw [if_neg hb]

/-- A raising rapporteurs collaborator leaves fetch_rapporteurs at []. -/
theorem fetch_rapporteurs_of_error (cfg : UnifierCfg) (env : EnrichEnv) (pn : Option String)
    (h : env.get_process_rapporteurs (pn.getD "") = .error ()) :
    fetch_rapporteurs cfg env pn = [] := by
  unfold fetch_rapporteurs
  by_cases hb : (cfg.enrich_voting && truthyStr pn) = true
  · rw [if_pos hb, h]
  · rw [if_neg hb]

/-- A raising senate-position collaborator leaves the field unset. -/
theorem fetch_senate_position_of_error (cfg : UnifierCfg) (env : EnrichEnv)
    (pn : Option String) (h : env.get_senate_position (pn.getD "") = .error ()) :
    fetch_senate_position cfg env pn = none := by
  unfold fetch_senate_position
  by_cases hb : (cfg.enrich_voting && truthyStr pn) = true
  · rw [if_pos hb, h]
  · rw [if_neg hb]

/-- A raising signature collaborator leaves the field unset. -/
theorem fetch_president_signature_of_error (cfg : UnifierCfg) (env : EnrichEnv)
    (pn : Option String) (h : env.get_president_signature (pn.getD "") = .error ()) :
    fetch_president_signature cfg env pn = none := by
  unfold fetch_president_signature
  by_cases hb : (cfg.enrich_voting && truthyStr pn) = true
  · rw [if_pos hb, h]
  · rw [if_neg hb]

/-- A raising ELI collaborator leaves the publication dict absent. -/
theorem fetch_eli_data_of_error (cfg : UnifierCfg) (env : EnrichEnv) (eli : String)
    (h : env.get_parsed_act eli = .error ()) :
    fetch_eli_data cfg env eli = none := by
  unfold fetch_eli_data
  by_cases hb : (cfg.fetch_eli && !eli.toList.isEmpty) = true
  · rw [if_pos (by simpa using hb), h]
  · rw [if_neg (by simpa using hb)]

/-- A raising SAOS collaborator leaves the tribunal list empty. -/
theorem fetch_tribunal_cases_of_error (cfg : UnifierCfg) (env : EnrichEnv) (eli : String)
    (h : env.find_cases_for_law eli = .error ()) :
    fetch_tribunal_cases cfg env eli = [] := by
  unfold fetch_tribunal_cases
  by_cases hb : (cfg.fetch_tribunal && !eli.toList.isEmpty) = true
  · rw [if_pos (by simpa using hb), h]
  · rw [if_neg (by simpa using hb)]

/-- A raising enriched-voting collaborator makes extract_voting fall back to
the basic extraction from the process stages. -/
theorem extract_voting_of_error (cfg : UnifierCfg) (env : EnrichEnv) (sejm : SejmProcessR)
    (pn : Option String) (h : env.find_final_voting (pn.getD "") = .error ()) :
    extract_voting cfg env sejm pn = fallback_voting sejm.stages := by
  unfold extract_voting
  by_cases hb : (cfg.enrich_voting && truthyStr pn) = true
  · rw [if_pos hb, h]
  · rw [if_neg hb]

/-- C7 amended: enrichment failures never abort unify — it returns a Project
exactly when the timeline merge succeeds; a raising lookup leaves its field
at the default (committees, rapporteurs: empty list; senate position,
signature date, publication dates: unset; tribunal cases: empty list), with
the one exception that a raising enriched-voting lookup falls back to the
basic voting extracted from the process data; and failing one lookup leaves
every other field of the Project unchanged (shown for the committees
collaborator against an otherwise identical environment). -/
theorem unify_enrichment_guarded (cfg : UnifierCfg) (env : EnrichEnv) (lp : LinkedProject) :
    ((∃ p, unify cfg env lp = .ok p) ↔
      (∃ l, merge_stages (convert_rcl_stages lp.rcl_project) (linkedSejmStages lp) = .ok l)) ∧
    (∀ p, unify cfg env lp = .ok p →
      ((∀ s, env.get_process_committees s = .error ()) → p.committees = []) ∧
      ((∀ s, env.get_process_rapporteurs s = .error ()) → p.rapporteurs = []) ∧
      ((∀ s, env.get_senate_position s = .error ()) → p.senate_position = none) ∧
      ((∀ s, env.get_president_signature s = .error ()) →
        p.president_signature_date = none) ∧
      ((∀ s, env.get_parsed_act s = .error ()) →
        p.publication_date = none ∧ p.entry_into_force = none) ∧
      ((∀ s, env.find_cases_for_law s = .error ()) → p.tribunal_cases = []) ∧
      ((∀ s, env.find_final_voting s = .error ()) → ∀ sejm, lp.sejm_process = some sejm →
        p.voting = fallback_voting sejm.stages)) ∧
    (∀ p p', unify cfg env lp = .ok p →
      unify cfg { env with get_process_committees := fun _ => .error () } lp = .ok p' →
      p' = { p with committees := [] }) := by
  refine ⟨?_, ?_, ?_⟩
  · unfold unify
    cases hm : merge_stages (convert_rcl_stages lp.rcl_project) (linkedSejmStages lp) with
    | error e =>
      constructor
      · rintro ⟨p, hp⟩; cases hp
      · rintro ⟨l, hl⟩; cases hl
    | ok merged =>
      constructor
      · intro _; exact ⟨merged, rfl⟩
      · intro _; exact ⟨unifyBody cfg env lp merged, rfl⟩
  · intro p hp
    unfold unify at hp
    cases hm : merge_stages (convert_rcl_stages lp.rcl_project) (linkedSejmStages lp) with
    | error e => rw [hm] at hp; cases hp
    | ok merged =>
      rw [hm] at hp
      dsimp only at hp
      cases hp
      refine ⟨?_, ?_, ?_, ?_, ?_, ?_, ?_⟩
      · intro herr
        rw [unifyBody_committees]
        cases lp.sejm_process with
        | none => rfl
        | some sejm => exact fetch_committees_of_error cfg env _ (herr _)
      · intro herr
        rw [unifyBody_rapporteurs]
        cases lp.sejm_process with
        | none => rfl
        | some sejm => exact fetch_rapporteurs_of_error cfg env _ (herr _)
      · intro herr
        rw [unifyBody_senate_position]
        cases lp.sejm_process with
        | none => rfl
        | some sejm => exact fetch_senate_position_of_error cfg env _ (herr _)
      · intro herr
        rw [unifyBody_president]
        cases lp.sejm_process with
        | none => rfl
        | some sejm => exact fetch_president_signature_of_error cfg env _ (herr _)
      · intro herr
        have hb := unifyBody_publication cfg env lp merged
        cases hsp : lp.sejm_process with
        | none =>
          rw [hsp] at hb
          simp only [Prod.mk.injEq] at hb
          exact hb
        | some sejm =>
          rw [hsp] at hb
          dsimp only at hb
          rw [fetch_eli_data_of_error cfg env _ (herr _)] at hb
          by_cases hg : truthyStr sejm.ELI = true
          · rw [if_pos hg] at hb
            simp only [Prod.mk.injEq] at hb
            exact hb
          · rw [if_neg hg] at hb
            simp only [Prod.mk.injEq] at hb
            exact hb
      · intro herr
        rw [unifyBody_tribunal]
        cases lp.sejm_process with
        | none => rfl
        | some sejm =>
          dsimp only
          by_cases hg : truthyStr sejm.ELI = true
          · rw [if_pos hg]
            exact fetch_tribunal_cases_of_error cfg env _ (herr _)
          · rw [if_neg hg]
      · intro herr sejm hsp
        rw [unifyBody_voting, hsp]
        exact extract_voting_of_error cfg env sejm _ (herr _)
  · intro p p' hp hp'
    unfold unify at hp hp'
    cases hm : merge_stages (convert_rcl_stages lp.rcl_project) (linkedSejmStages lp) with
    | error e => rw [hm] at hp; cases hp
    | ok merged =>
      rw [hm] at hp hp'
      dsimp only at hp hp'
      cases hp
      cases hp'
      show unifyBody cfg { env with get_process_committees := fun _ => .error () } lp merged =
        { unifyBody cfg env lp merged with committees := [] }
      unfold unifyBody Project.update_phase
      cases lp.sejm_process with
      | none => rfl
      | some sejm =>
        dsimp only
        by_cases hg : truthyStr sejm.ELI = true
        · rw [if_pos hg, if_pos hg]
          have hed : fetch_eli_data cfg
              { env with get_process_committees := fun _ => .error () }
              (sejm.ELI.getD "") = fetch_eli_data cfg env (sejm.ELI.getD "") := rfl
          rw [hed]
          cases fetch_eli_data cfg env (sejm.ELI.getD "") with
          | none =>
            dsimp only
            congr 1
            dsimp only
            apply fetch_committees_of_error
            rfl
          | some ed =>
            dsimp only
            congr 1
            dsimp only
            apply fetch_committees_of_error
            rfl
        · rw [if_neg hg, if_neg hg]
          congr 1
          dsimp only
          apply fetch_committees_of_error
          rfl

/-- C7 counterexample: with every collaborator raising, unify on a linked
process whose stages carry a basic voting still returns a Project whose
voting field holds that fallback voting — the raising enriched-voting
lookup does not leave the field unset. -/
theorem enrichment_error_field_not_left_unset :
    envAllErr.find_final_voting "55" = .error () ∧
    (unify {} envAllErr lpTie).map Project.voting = .ok (some (mkFallbackVoting rawTie)) ∧
    some (mkFallbackVoting rawTie) ≠ (none : Option Voting) :=
  ⟨rfl, rfl, by decide⟩

/-- Witness for C7's amended theorem at the all-raising environment: unify
still returns a Project, committees default to empty and voting falls back
to the basic extraction. -/
theorem unify_enrichment_guarded_witness :
    (unify {} envAllErr lpTie).map Project.committees = .ok [] ∧
    (unify {} envAllErr lpTie).map Project.voting = .ok (fallback_voting sejmTie.stages) := by
  have h := unify_enrichment_guarded {} envAllErr lpTie
  obtain ⟨p, hp⟩ := (h.1).mpr ⟨_, rfl⟩
  have h2 := h.2.1 p hp
  constructor
  · rw [hp]
    have hc := h2.1 (fun s => rfl)
    simp [Except.map, hc]
  · rw [hp]
    have hv := h2.2.2.2.2.2.2 (fun s => rfl) sejmTie rfl
    simp [Except.map, hv]
